import Mathlib

/-!
Verification of the faucet-terminal admission pipeline.

This file gives a shallow embedding of the request-admission layer of the
repository (package `internal/api`, file `handlers.go`, plus the EIP-55
checksum helpers of `pkg/cli/commands/request.go`) and proves properties
of it.  Stateful Go code is embedded as explicit state passing over a
`Store` record; the external collaborators (Redis counter store, chain
RPC) are modelled by a `Store` snapshot plus an `Env` record of
error-injection flags and call outcomes.  Go float64 amounts are embedded
as exact rationals, Go time instants as natural-number seconds.
-/

namespace Faucet

/-- Chain capability surface, embedded from the `chains.Chain` and
`ChainProvider` interfaces used by `handlers.go`: address/token
validation, supported token list, drip amount and global caps per token,
and the minimum-balance-protection percentage. -/
structure Chain where
  validateAddress : String → Bool
  validateToken : String → Bool
  supportedTokens : List String
  dripAmount : String → ℚ
  maxTokensPerHour : String → ℚ
  maxTokensPerDay : String → ℚ
  minBalanceProtectPct : ℤ

/-- Handler configuration: the chain registry (`chainOf`), the default
network, the daily per-IP cap (`config.MaxRequestsPerDayIP`), and the PoW
verifier `powGenerator.VerifyPoW` at the configured difficulty (the `pow`
package is not part of the admission code under verification, so the
verifier is kept abstract). -/
structure Ctx where
  chainOf : String → Option Chain
  defaultNetwork : String
  maxRequestsPerDayIP : Nat
  verifyPoW : String → Int → Bool

/-- Counter-store snapshot: every key family the handler touches.
`daily` and `cooldownEnd` are keyed by caller IP, `throttleEnd` by
(ip, network, token) and holds the marker expiry instant, `challenge` by
challenge id, and the two global distribution counters by token. -/
structure Store where
  daily : String → Nat
  cooldownEnd : String → Option Nat
  throttleEnd : String → String → String → Option Nat
  challenge : String → Option String
  globalHourly : String → ℚ
  globalDaily : String → ℚ

/-- Per-call environment: the current instant, error injection for each
collaborator call, the chain balance read (`none` = RPC error) and the
transfer outcome (`none` = transfer failure, `some h` = tx hash). -/
structure Env where
  now : Nat
  dailyErr : Bool
  quotaErr : Bool
  throttleErr : String → Bool
  challengeErr : Bool
  globalErr : String → Bool
  balanceOf : String → Option ℚ
  transfer : String → Option String

/-- One faucet request as parsed by `RequestTokens`: caller IP, recipient
address, token symbol, network, challenge id and PoW nonce. -/
structure Request where
  ip : String
  address : String
  token : String
  network : String
  challengeID : String
  nonce : Int
deriving DecidableEq, Repr

/-- Outcome of one `RequestTokens` call, one constructor per distinct
exit of `handlers.go` (times are carried in seconds). `success` carries
the (token, txHash) list and, for the BOTH path, the failed token of a
partial success. -/
inductive Response where
  | badNetwork
  | invalidAddress
  | invalidToken
  | rateCheckError
  | dailyCooldown (remaining : Nat)
  | dailyQuota
  | hourlyThrottle (token : String) (remaining : Nat)
  | powInvalidChallenge
  | powBadSolution
  | processError
  | distributionLimit
  | balanceCheckError
  | lowBalance
  | transferError
  | bothAllFailed (failedToken : String)
  | success (txs : List (String × String)) (failedToken : Option String)
deriving DecidableEq, Repr

/-- ASCII uppercase of a string, as Go `strings.ToUpper` on the token
symbols handled here. -/
def goToUpper (s : String) : String := String.mk (s.data.map Char.toUpper)

/-- Network resolution of `getChain`: an empty network name selects the
default network. -/
def resolveNetwork (ctx : Ctx) (network : String) : String :=
  if network = "" then ctx.defaultNetwork else network

/-- Modelled from the spec: `CheckIPDailyLimit` of the missing
`internal/cache` package (spec §4.3.1) — reads the daily counter and the
cooldown marker; the request is allowed iff no cooldown marker is
present and the counter is below the cap. Returns
(canRequest, currentCount, cooldownEnd). -/
def checkIPDailyLimit (cap : Nat) (st : Store) (ip : String) :
    Bool × Nat × Option Nat :=
  ((st.cooldownEnd ip).isNone && decide (st.daily ip < cap),
    st.daily ip, st.cooldownEnd ip)

/-- Modelled from the spec: `GetIPDailyQuota` of the missing
`internal/cache` package — returns (used, remaining, cooldownEnd). -/
def getIPDailyQuota (cap : Nat) (st : Store) (ip : String) :
    Nat × Nat × Option Nat :=
  (st.daily ip, cap - st.daily ip, st.cooldownEnd ip)

/-- Modelled from the spec: `IncrementIPDailyLimit` of the missing
`internal/cache` package (spec §4.3.1 commit) — adds `n` to the daily
counter and, if the post-increment value reaches the cap, sets the
cooldown marker with a 24-hour TTL. -/
def incrementIPDailyLimit (cap : Nat) (st : Store) (now : Nat)
    (ip : String) (n : Nat) : Store :=
  { st with
    daily := fun i => if i = ip then st.daily ip + n else st.daily i,
    cooldownEnd := fun i =>
      if i = ip then
        (if cap ≤ st.daily ip + n then some (now + 86400) else st.cooldownEnd i)
      else st.cooldownEnd i }

/-- Modelled from the spec: `CheckTokenHourlyThrottle` of the missing
`internal/cache` package (spec §4.3.2) — allowed iff no live throttle
marker exists for the exact (ip, network, token) key; when throttled it
reports the marker expiry instant. -/
def checkTokenHourlyThrottle (st : Store) (now : Nat)
    (ip network tok : String) : Bool × Option Nat :=
  match st.throttleEnd ip network tok with
  | none => (true, none)
  | some e => if now < e then (false, some e) else (true, none)

/-- Modelled from the spec: `SetTokenHourlyThrottle` of the missing
`internal/cache` package — sets the throttle marker for the exact
(ip, network, token) key with a 1-hour TTL. -/
def setTokenHourlyThrottle (st : Store) (now : Nat)
    (ip network tok : String) : Store :=
  { st with
    throttleEnd := fun i n t =>
      if i = ip ∧ n = network ∧ t = tok then some (now + 3600)
      else st.throttleEnd i n t }

/-- Modelled from the spec: `TrackGlobalDistribution` of the missing
`internal/cache` package (spec §4.3.3) — atomic check-and-increment of
the global hourly and daily counters for a token; allowed iff adding the
amount exceeds neither cap, and the counters move only when allowed. -/
def trackGlobalDistribution (st : Store) (tok : String)
    (amount maxHourly maxDaily : ℚ) : Bool × Store :=
  if st.globalHourly tok + amount ≤ maxHourly ∧
      st.globalDaily tok + amount ≤ maxDaily then
    (true,
      { st with
        globalHourly := fun t =>
          if t = tok then st.globalHourly tok + amount else st.globalHourly t,
        globalDaily := fun t =>
          if t = tok then st.globalDaily tok + amount else st.globalDaily t })
  else (false, st)

/-- Modelled from the spec: `DeleteChallenge` of the missing
`internal/cache` package — removes a stored challenge. -/
def deleteChallenge (st : Store) (cid : String) : Store :=
  { st with challenge := fun c => if c = cid then none else st.challenge c }

/-- The balance-protection comparison of `RequestTokens`
(`handlers.go` lines 360-366): deny iff the post-transfer balance would
fall strictly below `balance * minBalanceProtectPct / 100`. -/
def balanceGuardDeny (balance amount : ℚ) (pct : ℤ) : Bool :=
  decide (balance - amount < balance * ((pct : ℚ) / 100))

/-- Daily-quota units consumed by a request (`requestCost` in
`handlers.go`): 2 for a BOTH request, 1 otherwise. -/
def dailyCost (token : String) : Nat := if token = "BOTH" then 2 else 1

/-- Tokens whose hourly throttle the handler checks: every supported
token for a BOTH request, otherwise just the requested one. -/
def throttleTargets (chain : Chain) (token : String) : List String :=
  if token = "BOTH" then chain.supportedTokens else [token]

/-- Outcome of scanning the hourly throttles of a token list. -/
inductive ThrottleScan where
  | pass
  | storeErr
  | throttled (token : String) (expiry : Nat)
deriving DecidableEq, Repr

/-- The throttle-check loop of `RequestTokens` (`handlers.go` lines
255-292): for each token in order, a store error aborts with a 500, a
live marker rejects naming that token, otherwise continue. -/
def scanThrottles (env : Env) (st : Store) (ip network : String) :
    List String → ThrottleScan
  | [] => .pass
  | t :: rest =>
    if env.throttleErr t then .storeErr
    else
      match checkTokenHourlyThrottle st env.now ip network t with
      | (false, some e) => .throttled t e
      | _ => scanThrottles env st ip network rest

/-- Sets the hourly throttle marker for each token of a list, as the
commit loop of `handleBothTokensRequest` (`handlers.go` lines 629-633). -/
def setThrottleList (st : Store) (now : Nat) (ip network : String) :
    List String → Store
  | [] => st
  | t :: rest =>
    setThrottleList (setTokenHourlyThrottle st now ip network t) now ip network rest

/-- The single-token disbursement tail of `RequestTokens` (`handlers.go`
lines 324-425): global distribution check, balance read, balance guard,
transfer, then commit (daily counter +1, hourly throttle marker). -/
def singleDisburse (ctx : Ctx) (env : Env) (req : Request) (st : Store)
    (chain : Chain) (network token : String) : Response × Store :=
  if env.globalErr token then (.processError, st)
  else
    match trackGlobalDistribution st token (chain.dripAmount token)
        (chain.maxTokensPerHour token) (chain.maxTokensPerDay token) with
    | (ok, st1) =>
      if ok = false then (.distributionLimit, st1)
      else
        match env.balanceOf token with
        | none => (.balanceCheckError, st1)
        | some bal =>
          if balanceGuardDeny bal (chain.dripAmount token)
              chain.minBalanceProtectPct then (.lowBalance, st1)
          else
            match env.transfer token with
            | none => (.transferError, st1)
            | some txh =>
              (.success [(token, txh)] none,
                setTokenHourlyThrottle
                  (incrementIPDailyLimit ctx.maxRequestsPerDayIP st1 env.now req.ip 1)
                  env.now req.ip network token)

/-- The per-token loop of `handleBothTokensRequest` (`handlers.go` lines
556-615): for each token, global distribution check, balance read,
balance guard, transfer; the first failure records the failed token and
breaks the loop.  Returns (transactions, failedToken, store). -/
def bothLoop (env : Env) (chain : Chain) (st : Store)
    (acc : List (String × String)) :
    List String → List (String × String) × Option String × Store
  | [] => (acc, none, st)
  | t :: rest =>
    if env.globalErr t then (acc, some t, st)
    else
      match trackGlobalDistribution st t (chain.dripAmount t)
          (chain.maxTokensPerHour t) (chain.maxTokensPerDay t) with
      | (ok, st1) =>
        if ok = false then (acc, some t, st1)
        else
          match env.balanceOf t with
          | none => (acc, some t, st1)
          | some bal =>
            if balanceGuardDeny bal (chain.dripAmount t)
                chain.minBalanceProtectPct then (acc, some t, st1)
            else
              match env.transfer t with
              | none => (acc, some t, st1)
              | some txh => bothLoop env chain st1 (acc ++ [(t, txh)]) rest

/-- `handleBothTokensRequest` (`handlers.go` lines 549-651): run the
per-token loop over the supported tokens; if at least one transaction
succeeded, increment the daily counter by 2, set the hourly throttle for
each disbursed token, and answer success (naming the failed token on a
partial success); otherwise answer a 500 naming the failed token. -/
def handleBothTokensRequest (ctx : Ctx) (env : Env) (req : Request)
    (st : Store) (chain : Chain) (network : String) : Response × Store :=
  match bothLoop env chain st [] chain.supportedTokens with
  | (txs, failedToken, st1) =>
    if txs.isEmpty then (.bothAllFailed (failedToken.getD ""), st1)
    else
      (.success txs failedToken,
        setThrottleList
          (incrementIPDailyLimit ctx.maxRequestsPerDayIP st1 env.now req.ip 2)
          env.now req.ip network (txs.map Prod.fst))

/-- The PoW stage of `RequestTokens` (`handlers.go` lines 294-322): the
challenge lookup conflates a store error and a missing challenge into one
rejection; a wrong solution rejects; on success the challenge is deleted
and the request dispatches to the BOTH or single-token tail. -/
def powStage (ctx : Ctx) (env : Env) (req : Request) (st : Store)
    (chain : Chain) (network token : String) : Response × Store :=
  if env.challengeErr then (.powInvalidChallenge, st)
  else
    match st.challenge req.challengeID with
    | none => (.powInvalidChallenge, st)
    | some ch =>
      if ctx.verifyPoW ch req.nonce then
        (if token = "BOTH" then
          handleBothTokensRequest ctx env req (deleteChallenge st req.challengeID) chain network
        else
          singleDisburse ctx env req (deleteChallenge st req.challengeID) chain network token)
      else (.powBadSolution, st)

/-- The throttle stage of `RequestTokens` (`handlers.go` lines 249-292). -/
def throttleStage (ctx : Ctx) (env : Env) (req : Request) (st : Store)
    (chain : Chain) (network token : String) : Response × Store :=
  match scanThrottles env st req.ip network (throttleTargets chain token) with
  | .storeErr => (.rateCheckError, st)
  | .throttled t e => (.hourlyThrottle t (e - env.now), st)
  | .pass => powStage ctx env req st chain network token

/-- The daily-quota stage of `RequestTokens` (`handlers.go` lines
207-247): a store error is a 500; a cooldown marker rejects with the
remaining time; exceeding the cap with this request's cost rejects. -/
def dailyStage (ctx : Ctx) (env : Env) (req : Request) (st : Store)
    (chain : Chain) (network token : String) : Response × Store :=
  if env.dailyErr then (.rateCheckError, st)
  else
    match checkIPDailyLimit ctx.maxRequestsPerDayIP st req.ip with
    | (canRequest, currentCount, cooldownEnd) =>
      if canRequest = false ∧ cooldownEnd.isSome then
        (.dailyCooldown (cooldownEnd.getD 0 - env.now), st)
      else if canRequest = false ∨
          ctx.maxRequestsPerDayIP < currentCount + dailyCost token then
        (.dailyQuota, st)
      else throttleStage ctx env req st chain network token

/-- The token-validation stage of `RequestTokens` (`handlers.go` lines
194-202): the token is uppercased; a non-BOTH token must pass the
chain-specific validation. -/
def tokenStage (ctx : Ctx) (env : Env) (req : Request) (st : Store)
    (chain : Chain) (network : String) : Response × Store :=
  if goToUpper req.token ≠ "BOTH" ∧ chain.validateToken (goToUpper req.token) = false then
    (.invalidToken, st)
  else dailyStage ctx env req st chain network (goToUpper req.token)

/-- `RequestTokens` (`handlers.go` lines 168-426): network resolution and
chain lookup, address validation, then the staged pipeline. -/
def requestTokens (ctx : Ctx) (env : Env) (req : Request) (st : Store) :
    Response × Store :=
  match ctx.chainOf (resolveNetwork ctx req.network) with
  | none => (.badNetwork, st)
  | some chain =>
    if chain.validateAddress req.address then
      tokenStage ctx env req st chain (resolveNetwork ctx req.network)
    else (.invalidAddress, st)

/-- The JSON body of a status reply (`models.StatusResponse` as consumed
by the UI): the handler sets only `address` and `canRequest`. -/
structure StatusResponse where
  address : String
  canRequest : Bool
  nextRequestTime : Option Nat
  remainingHours : Option ℚ
deriving DecidableEq, Repr

/-- Outcome of one `GetStatus` call. -/
inductive StatusResult where
  | ok (r : StatusResponse)
  | badNetwork
  | invalidAddress
  | statusErr
deriving DecidableEq, Repr

/-- `GetStatus` (`handlers.go` lines 429-477): network resolution,
chain-specific address validation, then the requester-IP daily quota
decides `canRequest`; the cooldown fields are never populated. -/
def getStatus (ctx : Ctx) (env : Env) (st : Store)
    (address network ip : String) : StatusResult :=
  match ctx.chainOf (resolveNetwork ctx network) with
  | none => .badNetwork
  | some chain =>
    if chain.validateAddress address then
      if env.quotaErr then .statusErr
      else
        match getIPDailyQuota ctx.maxRequestsPerDayIP st ip with
        | (_, remaining, cooldownEnd) =>
          .ok { address := address
                canRequest := decide (0 < remaining) && cooldownEnd.isNone
                nextRequestTime := none
                remainingHours := none }
    else .invalidAddress

/-- ASCII lowercase of one byte, as Go `strings.ToLower` on the ASCII
hex text handled by `toEIP55Checksum`. -/
def lowerByte (b : Nat) : Nat := if 65 ≤ b ∧ b ≤ 90 then b + 32 else b

/-- ASCII uppercase of one byte, as Go `strings.ToUpper` on one hex
character. -/
def upperByte (b : Nat) : Nat := if 97 ≤ b ∧ b ≤ 122 then b - 32 else b

/-- Whether a byte is an ASCII hex digit (0-9, a-f, A-F). -/
def isHexByte (b : Nat) : Bool :=
  decide ((48 ≤ b ∧ b ≤ 57) ∨ (97 ≤ b ∧ b ≤ 102) ∨ (65 ≤ b ∧ b ≤ 70))

/-- One character of the checksum loop of `toEIP55Checksum`
(`request.go` lines 359-371): digits are kept, letters are uppercased
iff the matching hash nibble is at least the character `8` (byte 56). -/
def eip55Byte (c h : Nat) : Nat :=
  if 48 ≤ c ∧ c ≤ 57 then c
  else if 56 ≤ h then upperByte c else c

/-- `toEIP55Checksum` (`request.go` lines 347-374), over byte lists:
drop the `0x` prefix, lowercase, Keccak-256-hash the lowercase hex text
(the hash is abstract here: `keccakHex` maps the address bytes to the 64
hex characters of the digest), and re-case each letter from the matching
hash nibble.  Bytes 48 and 120 are the characters `0` and `x`. -/
def toEIP55Checksum (keccakHex : List Nat → List Nat)
    (address : List Nat) : List Nat :=
  48 :: 120 ::
    List.zipWith eip55Byte ((address.drop 2).map lowerByte)
      (keccakHex ((address.drop 2).map lowerByte))

/-- `isValidEIP55Checksum` (`request.go` lines 342-344): an address is
validly checksummed iff it equals its own checksumming. -/
def isValidEIP55Checksum (keccakHex : List Nat → List Nat)
    (address : List Nat) : Bool :=
  address == toEIP55Checksum keccakHex address

/-- Whether a throttle marker for the exact (ip, network, token) key is
live at instant `now`. -/
def markerLive (st : Store) (now : Nat) (ip network tok : String) : Bool :=
  match st.throttleEnd ip network tok with
  | none => false
  | some e => decide (now < e)

/-- Whether a response is a disbursement (full or partial success). -/
def isSuccess : Response → Bool
  | .success _ _ => true
  | _ => false

/-- Whether a response is a daily-quota rejection (cooldown or cap). -/
def isDailyReject : Response → Bool
  | .dailyCooldown _ => true
  | .dailyQuota => true
  | _ => false

/-- Whether a response is an hourly-throttle rejection. -/
def isHourlyReject : Response → Bool
  | .hourlyThrottle _ _ => true
  | _ => false

/-- Whether a response is a PoW rejection (the 400s of the PoW stage). -/
def isPowReject : Response → Bool
  | .powInvalidChallenge => true
  | .powBadSolution => true
  | _ => false

/-- Whether a response is one of the try-again 500s the handler answers
when a collaborator call errors. -/
def isTryAgain : Response → Bool
  | .rateCheckError => true
  | .processError => true
  | .balanceCheckError => true
  | .transferError => true
  | _ => false

/-- Whether a response is a rate-limit rejection in the sense of the
error taxonomy (daily cap, cooldown, throttle, or distribution cap). -/
def isRateLimitReject : Response → Bool
  | .dailyCooldown _ => true
  | .dailyQuota => true
  | .hourlyThrottle _ _ => true
  | .distributionLimit => true
  | _ => false

/-- The (token, txHash) pairs a response disbursed. -/
def disbursedTxs : Response → List (String × String)
  | .success txs _ => txs
  | _ => []

/-- Test fixture: a single-token Ethereum-style chain. -/
def ethFixture : Chain where
  validateAddress := fun _ => true
  validateToken := fun t => t == "ETH"
  supportedTokens := ["ETH"]
  dripAmount := fun _ => 1 / 100
  maxTokensPerHour := fun _ => 1
  maxTokensPerDay := fun _ => 5
  minBalanceProtectPct := 20

/-- Test fixture: a two-token Starknet-style chain. -/
def snFixture : Chain where
  validateAddress := fun _ => true
  validateToken := fun t => t == "STRK" || t == "ETH"
  supportedTokens := ["STRK", "ETH"]
  dripAmount := fun _ => 10
  maxTokensPerHour := fun _ => 100
  maxTokensPerDay := fun _ => 500
  minBalanceProtectPct := 10

/-- Test fixture: handler configuration with both fixture chains; the
PoW verifier accepts exactly nonce 7. -/
def ctxFixture : Ctx where
  chainOf := fun n =>
    if n == "ethereum" then some ethFixture
    else if n == "starknet" then some snFixture
    else none
  defaultNetwork := "starknet"
  maxRequestsPerDayIP := 5
  verifyPoW := fun _ n => n == 7

/-- Test fixture: fresh store holding one challenge `c1`. -/
def storeFixture : Store where
  daily := fun _ => 0
  cooldownEnd := fun _ => none
  throttleEnd := fun _ _ _ => none
  challenge := fun c => if c == "c1" then some "ch1" else none
  globalHourly := fun _ => 0
  globalDaily := fun _ => 0

/-- Test fixture: no collaborator errors, ample balance, all transfers
succeed. -/
def envFixture : Env where
  now := 1000
  dailyErr := false
  quotaErr := false
  throttleErr := fun _ => false
  challengeErr := false
  globalErr := fun _ => false
  balanceOf := fun _ => some 100
  transfer := fun t => if t == "STRK" then some "0xaaa" else some "0xbbb"

/-- Test fixture: the ETH transfer fails while STRK succeeds. -/
def envPartial : Env :=
  { envFixture with transfer := fun t => if t == "STRK" then some "0xaaa" else none }

/-- Test fixture: the counter store errors on the challenge lookup. -/
def envChallengeDown : Env := { envFixture with challengeErr := true }

/-- Test fixture: the faucet balance is too low for the balance guard. -/
def envLowBalance : Env := { envFixture with balanceOf := fun _ => some (1 / 100) }

/-- Test fixture: every transfer fails at the chain RPC. -/
def envTransferDown : Env := { envFixture with transfer := fun _ => none }

/-- Test fixture: a single-token request on the ethereum fixture. -/
def reqEth : Request where
  ip := "9.9.9.9"
  address := "0xabc"
  token := "ETH"
  network := "ethereum"
  challengeID := "c1"
  nonce := 7

/-- Test fixture: a BOTH request on the starknet fixture. -/
def reqBoth : Request where
  ip := "9.9.9.9"
  address := "0xabc"
  token := "BOTH"
  network := "starknet"
  challengeID := "c1"
  nonce := 7

theorem trackGlobal_preserves (st : Store) (tok : String) (a mh md : ℚ) :
    ((trackGlobalDistribution st tok a mh md).2).daily = st.daily ∧
    ((trackGlobalDistribution st tok a mh md).2).cooldownEnd = st.cooldownEnd ∧
    ((trackGlobalDistribution st tok a mh md).2).throttleEnd = st.throttleEnd ∧
    ((trackGlobalDistribution st tok a mh md).2).challenge = st.challenge := by
  unfold trackGlobalDistribution
  split <;> simp

theorem deleteChallenge_preserves (st : Store) (cid : String) :
    (deleteChallenge st cid).daily = st.daily ∧
    (deleteChallenge st cid).cooldownEnd = st.cooldownEnd ∧
    (deleteChallenge st cid).throttleEnd = st.throttleEnd := by
  unfold deleteChallenge
  exact ⟨rfl, rfl, rfl⟩

theorem incrementDaily_fields (cap : Nat) (st : Store) (now : Nat)
    (ip : String) (n : Nat) :
    (incrementIPDailyLimit cap st now ip n).daily ip = st.daily ip + n ∧
    (incrementIPDailyLimit cap st now ip n).throttleEnd = st.throttleEnd ∧
    (incrementIPDailyLimit cap st now ip n).challenge = st.challenge := by
  unfold incrementIPDailyLimit
  refine ⟨?_, rfl, rfl⟩
  simp

theorem setThrottle_throttleEnd (st : Store) (now : Nat)
    (ip network tok i n t : String) :
    (setTokenHourlyThrottle st now ip network tok).throttleEnd i n t =
      if i = ip ∧ n = network ∧ t = tok then some (now + 3600)
      else st.throttleEnd i n t := by
  unfold setTokenHourlyThrottle
  rfl

theorem setThrottle_preserves (st : Store) (now : Nat) (ip network tok : String) :
    (setTokenHourlyThrottle st now ip network tok).daily = st.daily ∧
    (setTokenHourlyThrottle st now ip network tok).cooldownEnd = st.cooldownEnd ∧
    (setTokenHourlyThrottle st now ip network tok).challenge = st.challenge := by
  unfold setTokenHourlyThrottle
  exact ⟨rfl, rfl, rfl⟩

theorem checkThrottle_of_not_live (st : Store) (now : Nat) (ip network tok : String)
    (h : markerLive st now ip network tok = false) :
    checkTokenHourlyThrottle st now ip network tok = (true, none) := by
  unfold markerLive at h
  unfold checkTokenHourlyThrottle
  cases he : st.throttleEnd ip network tok with
  | none => rfl
  | some e =>
    rw [he] at h
    simp only [decide_eq_false_iff_not, Nat.not_lt] at h
    simp [Nat.not_lt_of_le h]

theorem checkThrottle_of_live (st : Store) (now : Nat) (ip network tok : String)
    (h : markerLive st now ip network tok = true) :
    checkTokenHourlyThrottle st now ip network tok =
      (false, st.throttleEnd ip network tok) := by
  unfold markerLive at h
  unfold checkTokenHourlyThrottle
  cases he : st.throttleEnd ip network tok with
  | none => rw [he] at h; cases h
  | some e =>
    rw [he] at h
    simp only [decide_eq_true_eq] at h
    simp [h]

theorem scanThrottles_pass_iff (env : Env) (st : Store) (ip network : String)
    (L : List String) :
    scanThrottles env st ip network L = .pass ↔
      ∀ t ∈ L, env.throttleErr t = false ∧
        markerLive st env.now ip network t = false := by
  induction L with
  | nil => simp [scanThrottles]
  | cons t rest ih =>
    unfold scanThrottles
    cases herr : env.throttleErr t with
    | true => simp [herr]
    | false =>
      cases hlive : markerLive st env.now ip network t with
      | false =>
        rw [checkThrottle_of_not_live st env.now ip network t hlive]
        simp [herr, hlive, ih]
      | true =>
        rw [checkThrottle_of_live st env.now ip network t hlive]
        cases he : st.throttleEnd ip network t with
        | none =>
          unfold markerLive at hlive
          rw [he] at hlive
          cases hlive
        | some e =>
          simp only [herr, Bool.false_eq_true, if_false]
          constructor
          · intro h
            exact ThrottleScan.noConfusion h
          · intro h
            have h2 := (h t (List.mem_cons_self t rest)).2
            rw [h2] at hlive
            cases hlive

theorem setThrottleList_throttleEnd (now : Nat) (ip network : String) :
    ∀ (L : List String) (st : Store) (i n t : String),
    (setThrottleList st now ip network L).throttleEnd i n t =
      if i = ip ∧ n = network ∧ t ∈ L then some (now + 3600)
      else st.throttleEnd i n t := by
  intro L
  induction L with
  | nil =>
    intro st i n t
    simp [setThrottleList]
  | cons a rest ih =>
    intro st i n t
    unfold setThrottleList
    rw [ih, setThrottle_throttleEnd]
    by_cases hi : i = ip <;> by_cases hn : n = network <;>
      by_cases ht : t ∈ rest <;> by_cases ha : t = a <;>
      simp [hi, hn, ht, ha, List.mem_cons]

theorem setThrottleList_preserves (now : Nat) (ip network : String) :
    ∀ (L : List String) (st : Store),
    (setThrottleList st now ip network L).daily = st.daily ∧
    (setThrottleList st now ip network L).cooldownEnd = st.cooldownEnd ∧
    (setThrottleList st now ip network L).challenge = st.challenge := by
  intro L
  induction L with
  | nil =>
    intro st
    exact ⟨rfl, rfl, rfl⟩
  | cons a rest ih =>
    intro st
    unfold setThrottleList
    have h1 := setThrottle_preserves st now ip network a
    have h2 := ih (setTokenHourlyThrottle st now ip network a)
    exact ⟨h2.1.trans h1.1, h2.2.1.trans h1.2.1, h2.2.2.trans h1.2.2⟩

theorem singleDisburse_shape (ctx : Ctx) (env : Env) (req : Request) (st : Store)
    (chain : Chain) (network token : String) :
    (∃ txh, env.transfer token = some txh ∧
      singleDisburse ctx env req st chain network token =
        (.success [(token, txh)] none,
          setTokenHourlyThrottle
            (incrementIPDailyLimit ctx.maxRequestsPerDayIP
              (trackGlobalDistribution st token (chain.dripAmount token)
                (chain.maxTokensPerHour token) (chain.maxTokensPerDay token)).2
              env.now req.ip 1)
            env.now req.ip network token)) ∨
    (isSuccess (singleDisburse ctx env req st chain network token).1 = false ∧
      isDailyReject (singleDisburse ctx env req st chain network token).1 = false ∧
      isHourlyReject (singleDisburse ctx env req st chain network token).1 = false ∧
      isPowReject (singleDisburse ctx env req st chain network token).1 = false ∧
      (singleDisburse ctx env req st chain network token).2.daily = st.daily ∧
      (singleDisburse ctx env req st chain network token).2.cooldownEnd = st.cooldownEnd ∧
      (singleDisburse ctx env req st chain network token).2.throttleEnd = st.throttleEnd ∧
      (singleDisburse ctx env req st chain network token).2.challenge = st.challenge) := by
  have hpres := trackGlobal_preserves st token (chain.dripAmount token)
    (chain.maxTokensPerHour token) (chain.maxTokensPerDay token)
  unfold singleDisburse
  cases hg : env.globalErr token with
  | true =>
    right
    simp [isSuccess, isDailyReject, isHourlyReject, isPowReject]
  | false =>
    rcases htg : trackGlobalDistribution st token (chain.dripAmount token)
      (chain.maxTokensPerHour token) (chain.maxTokensPerDay token) with ⟨ok, st1⟩
    rw [htg] at hpres
    cases ok with
    | false =>
      right
      simp only [htg, Bool.false_eq_true, if_false, if_true]
      exact ⟨rfl, rfl, rfl, rfl, hpres.1, hpres.2.1, hpres.2.2.1, hpres.2.2.2⟩
    | true =>
      cases hb : env.balanceOf token with
      | none =>
        right
        simp only [htg, Bool.false_eq_true, if_false]
        exact ⟨rfl, rfl, rfl, rfl, hpres.1, hpres.2.1, hpres.2.2.1, hpres.2.2.2⟩
      | some bal =>
        cases hgd : balanceGuardDeny bal (chain.dripAmount token)
            chain.minBalanceProtectPct with
        | true =>
          right
          simp only [htg, hgd, Bool.false_eq_true, if_false, if_true]
          exact ⟨rfl, rfl, rfl, rfl, hpres.1, hpres.2.1, hpres.2.2.1, hpres.2.2.2⟩
        | false =>
          cases htr : env.transfer token with
          | none =>
            right
            simp only [htg, hgd, Bool.false_eq_true, if_false]
            exact ⟨rfl, rfl, rfl, rfl, hpres.1, hpres.2.1, hpres.2.2.1, hpres.2.2.2⟩
          | some txh =>
            left
            refine ⟨txh, rfl, ?_⟩
            simp [htg, hgd]

theorem bothLoop_preserves (env : Env) (chain : Chain) :
    ∀ (L : List String) (st : Store) (acc : List (String × String)),
    ((bothLoop env chain st acc L).2.2).daily = st.daily ∧
    ((bothLoop env chain st acc L).2.2).cooldownEnd = st.cooldownEnd ∧
    ((bothLoop env chain st acc L).2.2).throttleEnd = st.throttleEnd ∧
    ((bothLoop env chain st acc L).2.2).challenge = st.challenge := by
  intro L
  induction L with
  | nil =>
    intro st acc
    exact ⟨rfl, rfl, rfl, rfl⟩
  | cons t rest ih =>
    intro st acc
    have hpres := trackGlobal_preserves st t (chain.dripAmount t)
      (chain.maxTokensPerHour t) (chain.maxTokensPerDay t)
    unfold bothLoop
    cases hg : env.globalErr t with
    | true => exact ⟨rfl, rfl, rfl, rfl⟩
    | false =>
      rcases htg : trackGlobalDistribution st t (chain.dripAmount t)
        (chain.maxTokensPerHour t) (chain.maxTokensPerDay t) with ⟨ok, st1⟩
      rw [htg] at hpres
      cases ok with
      | false =>
        simp only [htg, Bool.false_eq_true, if_false, if_true]
        exact ⟨hpres.1, hpres.2.1, hpres.2.2.1, hpres.2.2.2⟩
      | true =>
        cases hb : env.balanceOf t with
        | none =>
          simp only [htg, Bool.false_eq_true, if_false]
          exact ⟨hpres.1, hpres.2.1, hpres.2.2.1, hpres.2.2.2⟩
        | some bal =>
          cases hgd : balanceGuardDeny bal (chain.dripAmount t)
              chain.minBalanceProtectPct with
          | true =>
            simp only [htg, hgd, Bool.false_eq_true, if_false, if_true]
            exact ⟨hpres.1, hpres.2.1, hpres.2.2.1, hpres.2.2.2⟩
          | false =>
            cases htr : env.transfer t with
            | none =>
              simp only [htg, hgd, Bool.false_eq_true, if_false]
              exact ⟨hpres.1, hpres.2.1, hpres.2.2.1, hpres.2.2.2⟩
            | some txh =>
              simp only [htg, hgd, Bool.false_eq_true, if_false]
              have hrec := ih st1 (acc ++ [(t, txh)])
              exact ⟨hrec.1.trans hpres.1, hrec.2.1.trans hpres.2.1,
                hrec.2.2.1.trans hpres.2.2.1, hrec.2.2.2.trans hpres.2.2.2⟩

theorem bothLoop_txs (env : Env) (chain : Chain) :
    ∀ (L : List String) (st : Store) (acc : List (String × String)),
    ∀ p ∈ (bothLoop env chain st acc L).1, p ∈ acc ∨ p.1 ∈ L := by
  intro L
  induction L with
  | nil =>
    intro st acc p hp
    exact Or.inl hp
  | cons t rest ih =>
    intro st acc p hp
    unfold bothLoop at hp
    rcases htg : trackGlobalDistribution st t (chain.dripAmount t)
      (chain.maxTokensPerHour t) (chain.maxTokensPerDay t) with ⟨ok, st1⟩
    cases hg : env.globalErr t with
    | true =>
      simp only [hg, if_true] at hp
      exact Or.inl hp
    | false =>
      cases ok with
      | false =>
        simp [hg, htg] at hp
        exact Or.inl hp
      | true =>
        cases hb : env.balanceOf t with
        | none =>
          simp [hg, htg, hb] at hp
          exact Or.inl hp
        | some bal =>
          cases hgd : balanceGuardDeny bal (chain.dripAmount t)
              chain.minBalanceProtectPct with
          | true =>
            simp [hg, htg, hb, hgd] at hp
            exact Or.inl hp
          | false =>
            cases htr : env.transfer t with
            | none =>
              simp [hg, htg, hb, hgd, htr] at hp
              exact Or.inl hp
            | some txh =>
              simp [hg, htg, hb, hgd, htr] at hp
              rcases ih st1 (acc ++ [(t, txh)]) p hp with hin | hin
              · rcases List.mem_append.mp hin with h | h
                · exact Or.inl h
                · right
                  simp only [List.mem_singleton] at h
                  rw [h]
                  exact List.mem_cons_self t rest
              · exact Or.inr (List.mem_cons_of_mem t hin)

theorem bothLoop_transfer (env : Env) (chain : Chain) :
    ∀ (L : List String) (st : Store) (acc : List (String × String)),
    ∀ p ∈ (bothLoop env chain st acc L).1,
      p ∈ acc ∨ env.transfer p.1 = some p.2 := by
  intro L
  induction L with
  | nil =>
    intro st acc p hp
    exact Or.inl hp
  | cons t rest ih =>
    intro st acc p hp
    unfold bothLoop at hp
    rcases htg : trackGlobalDistribution st t (chain.dripAmount t)
      (chain.maxTokensPerHour t) (chain.maxTokensPerDay t) with ⟨ok, st1⟩
    cases hg : env.globalErr t with
    | true =>
      simp only [hg, if_true] at hp
      exact Or.inl hp
    | false =>
      cases ok with
      | false =>
        simp [hg, htg] at hp
        exact Or.inl hp
      | true =>
        cases hb : env.balanceOf t with
        | none =>
          simp [hg, htg, hb] at hp
          exact Or.inl hp
        | some bal =>
          cases hgd : balanceGuardDeny bal (chain.dripAmount t)
              chain.minBalanceProtectPct with
          | true =>
            simp [hg, htg, hb, hgd] at hp
            exact Or.inl hp
          | false =>
            cases htr : env.transfer t with
            | none =>
              simp [hg, htg, hb, hgd, htr] at hp
              exact Or.inl hp
            | some txh =>
              simp [hg, htg, hb, hgd, htr] at hp
              rcases ih st1 (acc ++ [(t, txh)]) p hp with hin | hin
              · rcases List.mem_append.mp hin with h | h
                · exact Or.inl h
                · right
                  simp only [List.mem_singleton] at h
                  rw [h]
                  exact htr
              · exact Or.inr hin

theorem handleBoth_class (ctx : Ctx) (env : Env) (req : Request) (st : Store)
    (chain : Chain) (network : String) :
    isDailyReject (handleBothTokensRequest ctx env req st chain network).1 = false ∧
    isHourlyReject (handleBothTokensRequest ctx env req st chain network).1 = false ∧
    isPowReject (handleBothTokensRequest ctx env req st chain network).1 = false ∧
    isTryAgain (handleBothTokensRequest ctx env req st chain network).1 = false := by
  unfold handleBothTokensRequest
  rcases h : bothLoop env chain st [] chain.supportedTokens with ⟨txs, f, st1⟩
  by_cases he : txs.isEmpty <;>
    simp [he, isDailyReject, isHourlyReject, isPowReject, isTryAgain]

theorem handleBoth_not_success (ctx : Ctx) (env : Env) (req : Request) (st : Store)
    (chain : Chain) (network : String)
    (h : isSuccess (handleBothTokensRequest ctx env req st chain network).1 = false) :
    (handleBothTokensRequest ctx env req st chain network).2.daily = st.daily ∧
    (handleBothTokensRequest ctx env req st chain network).2.cooldownEnd = st.cooldownEnd ∧
    (handleBothTokensRequest ctx env req st chain network).2.throttleEnd = st.throttleEnd ∧
    (handleBothTokensRequest ctx env req st chain network).2.challenge = st.challenge := by
  have hpres := bothLoop_preserves env chain chain.supportedTokens st []
  unfold handleBothTokensRequest at h ⊢
  rcases hl : bothLoop env chain st [] chain.supportedTokens with ⟨txs, f, st1⟩
  rw [hl] at hpres h
  by_cases he : txs.isEmpty = true
  · simp only [he, if_true]
    exact ⟨hpres.1, hpres.2.1, hpres.2.2.1, hpres.2.2.2⟩
  · simp only [if_neg he] at h
    simp [isSuccess] at h

theorem powStage_class (ctx : Ctx) (env : Env) (req : Request) (st : Store)
    (chain : Chain) (network token : String) :
    isDailyReject (powStage ctx env req st chain network token).1 = false ∧
    isHourlyReject (powStage ctx env req st chain network token).1 = false := by
  unfold powStage
  cases hce : env.challengeErr with
  | true => exact ⟨rfl, rfl⟩
  | false =>
    cases hch : st.challenge req.challengeID with
    | none => exact ⟨rfl, rfl⟩
    | some ch =>
      cases hv : ctx.verifyPoW ch req.nonce with
      | false => simp [hv, isDailyReject, isHourlyReject]
      | true =>
        by_cases htk : token = "BOTH"
        · have hc := handleBoth_class ctx env req
            (deleteChallenge st req.challengeID) chain network
          simp [hv, htk, hc.1, hc.2.1]
        · rcases singleDisburse_shape ctx env req
              (deleteChallenge st req.challengeID) chain network token with
            ⟨txh, htr, heq⟩ | ⟨_, hd, hh, _, _⟩
          · simp [hv, htk, heq, isDailyReject, isHourlyReject]
          · simp [hv, htk, hd, hh]

theorem powStage_not_success (ctx : Ctx) (env : Env) (req : Request) (st : Store)
    (chain : Chain) (network token : String)
    (h : isSuccess (powStage ctx env req st chain network token).1 = false) :
    (powStage ctx env req st chain network token).2.daily = st.daily ∧
    (powStage ctx env req st chain network token).2.cooldownEnd = st.cooldownEnd ∧
    (powStage ctx env req st chain network token).2.throttleEnd = st.throttleEnd := by
  have hdel := deleteChallenge_preserves st req.challengeID
  unfold powStage at h ⊢
  cases hce : env.challengeErr with
  | true => exact ⟨rfl, rfl, rfl⟩
  | false =>
    rw [hce] at h
    cases hch : st.challenge req.challengeID with
    | none => exact ⟨rfl, rfl, rfl⟩
    | some ch =>
      rw [hch] at h
      cases hv : ctx.verifyPoW ch req.nonce with
      | false => simp [hv]
      | true =>
        by_cases htk : token = "BOTH"
        · simp only [hv, htk, if_true, reduceIte] at h ⊢
          have hb := handleBoth_not_success ctx env req
            (deleteChallenge st req.challengeID) chain network h
          exact ⟨hb.1.trans hdel.1, hb.2.1.trans hdel.2.1, hb.2.2.1.trans hdel.2.2⟩
        · simp only [hv, htk, if_true, reduceIte, if_false] at h ⊢
          rcases singleDisburse_shape ctx env req
              (deleteChallenge st req.challengeID) chain network token with
            ⟨txh, htr, heq⟩ | ⟨hs, _, _, _, hd, hc, ht, _⟩
          · rw [heq] at h
            simp [isSuccess] at h
          · exact ⟨hd.trans hdel.1, hc.trans hdel.2.1, ht.trans hdel.2.2⟩

theorem throttleStage_class (ctx : Ctx) (env : Env) (req : Request) (st : Store)
    (chain : Chain) (network token : String) :
    isDailyReject (throttleStage ctx env req st chain network token).1 = false := by
  unfold throttleStage
  cases h : scanThrottles env st req.ip network (throttleTargets chain token) with
  | pass =>
    exact (powStage_class ctx env req st chain network token).1
  | storeErr => rfl
  | throttled t e => rfl

theorem throttleStage_not_success (ctx : Ctx) (env : Env) (req : Request) (st : Store)
    (chain : Chain) (network token : String)
    (h : isSuccess (throttleStage ctx env req st chain network token).1 = false) :
    (throttleStage ctx env req st chain network token).2.daily = st.daily ∧
    (throttleStage ctx env req st chain network token).2.cooldownEnd = st.cooldownEnd ∧
    (throttleStage ctx env req st chain network token).2.throttleEnd = st.throttleEnd := by
  unfold throttleStage at h ⊢
  cases hs : scanThrottles env st req.ip network (throttleTargets chain token) with
  | pass =>
    rw [hs] at h
    exact powStage_not_success ctx env req st chain network token h
  | storeErr => exact ⟨rfl, rfl, rfl⟩
  | throttled t e => exact ⟨rfl, rfl, rfl⟩

theorem dailyStage_not_success (ctx : Ctx) (env : Env) (req : Request) (st : Store)
    (chain : Chain) (network token : String)
    (h : isSuccess (dailyStage ctx env req st chain network token).1 = false) :
    (dailyStage ctx env req st chain network token).2.daily = st.daily ∧
    (dailyStage ctx env req st chain network token).2.cooldownEnd = st.cooldownEnd ∧
    (dailyStage ctx env req st chain network token).2.throttleEnd = st.throttleEnd := by
  unfold dailyStage at h ⊢
  cases he : env.dailyErr with
  | true => exact ⟨rfl, rfl, rfl⟩
  | false =>
    rw [he] at h
    simp only [Bool.false_eq_true, if_false] at h ⊢
    by_cases h1 : (checkIPDailyLimit ctx.maxRequestsPerDayIP st req.ip).1 = false ∧
        ((checkIPDailyLimit ctx.maxRequestsPerDayIP st req.ip).2.2).isSome = true
    · simp only [if_pos h1]
      trivial
    · simp only [if_neg h1] at h ⊢
      by_cases h2 : (checkIPDailyLimit ctx.maxRequestsPerDayIP st req.ip).1 = false ∨
          ctx.maxRequestsPerDayIP <
            (checkIPDailyLimit ctx.maxRequestsPerDayIP st req.ip).2.1 + dailyCost token
      · simp only [if_pos h2]
        trivial
      · simp only [if_neg h2] at h ⊢
        exact throttleStage_not_success ctx env req st chain network token h

theorem requestTokens_not_success (ctx : Ctx) (env : Env) (req : Request) (st : Store)
    (h : isSuccess (requestTokens ctx env req st).1 = false) :
    (requestTokens ctx env req st).2.daily = st.daily ∧
    (requestTokens ctx env req st).2.cooldownEnd = st.cooldownEnd ∧
    (requestTokens ctx env req st).2.throttleEnd = st.throttleEnd := by
  unfold requestTokens tokenStage at h ⊢
  cases hc : ctx.chainOf (resolveNetwork ctx req.network) with
  | none => exact ⟨rfl, rfl, rfl⟩
  | some chain =>
    simp only [hc] at h ⊢
    by_cases ha : chain.validateAddress req.address = true
    · simp only [if_pos ha] at h ⊢
      by_cases ht : goToUpper req.token ≠ "BOTH" ∧
          chain.validateToken (goToUpper req.token) = false
      · simp only [if_pos ht]
        trivial
      · simp only [if_neg ht] at h ⊢
        exact dailyStage_not_success ctx env req st chain
          (resolveNetwork ctx req.network) (goToUpper req.token) h
    · simp only [if_neg ha]
      trivial

theorem requestTokens_to_daily (ctx : Ctx) (env : Env) (req : Request) (st : Store)
    (chain : Chain)
    (hchain : ctx.chainOf (resolveNetwork ctx req.network) = some chain)
    (haddr : chain.validateAddress req.address = true)
    (htok : goToUpper req.token = "BOTH" ∨
      chain.validateToken (goToUpper req.token) = true) :
    requestTokens ctx env req st =
      dailyStage ctx env req st chain (resolveNetwork ctx req.network)
        (goToUpper req.token) := by
  unfold requestTokens tokenStage
  simp only [hchain, haddr, if_true]
  rcases htok with h | h
  · simp [h]
  · simp [h]

theorem dailyStage_to_throttle (ctx : Ctx) (env : Env) (req : Request) (st : Store)
    (chain : Chain) (network token : String)
    (herr : env.dailyErr = false)
    (hcd : st.cooldownEnd req.ip = none)
    (hquota : st.daily req.ip + dailyCost token ≤ ctx.maxRequestsPerDayIP) :
    dailyStage ctx env req st chain network token =
      throttleStage ctx env req st chain network token := by
  have hone : 1 ≤ dailyCost token := by
    unfold dailyCost
    split <;> omega
  have hlt : st.daily req.ip < ctx.maxRequestsPerDayIP := by omega
  have hnl : ¬ ctx.maxRequestsPerDayIP < st.daily req.ip + dailyCost token :=
    Nat.not_lt.mpr hquota
  unfold dailyStage checkIPDailyLimit
  simp [herr, hcd, hlt, hnl]

theorem throttleStage_to_pow (ctx : Ctx) (env : Env) (req : Request) (st : Store)
    (chain : Chain) (network token : String)
    (hscan : scanThrottles env st req.ip network (throttleTargets chain token) = .pass) :
    throttleStage ctx env req st chain network token =
      powStage ctx env req st chain network token := by
  unfold throttleStage
  rw [hscan]

theorem powStage_to_single (ctx : Ctx) (env : Env) (req : Request) (st : Store)
    (chain : Chain) (network token : String) (ch : String)
    (hce : env.challengeErr = false)
    (hch : st.challenge req.challengeID = some ch)
    (hv : ctx.verifyPoW ch req.nonce = true)
    (htok : token ≠ "BOTH") :
    powStage ctx env req st chain network token =
      singleDisburse ctx env req (deleteChallenge st req.challengeID)
        chain network token := by
  unfold powStage
  simp [hce, hch, hv, htok]

theorem powStage_to_both (ctx : Ctx) (env : Env) (req : Request) (st : Store)
    (chain : Chain) (network : String) (ch : String)
    (hce : env.challengeErr = false)
    (hch : st.challenge req.challengeID = some ch)
    (hv : ctx.verifyPoW ch req.nonce = true) :
    powStage ctx env req st chain network "BOTH" =
      handleBothTokensRequest ctx env req (deleteChallenge st req.challengeID)
        chain network := by
  unfold powStage
  simp [hce, hch, hv]

theorem requestTokens_success_inversion (ctx : Ctx) (env : Env) (req : Request)
    (st : Store) (txs : List (String × String)) (f : Option String)
    (h : (requestTokens ctx env req st).1 = .success txs f) :
    ∃ chain, ctx.chainOf (resolveNetwork ctx req.network) = some chain ∧
      chain.validateAddress req.address = true ∧
      scanThrottles env st req.ip (resolveNetwork ctx req.network)
        (throttleTargets chain (goToUpper req.token)) = .pass ∧
      (∀ p ∈ txs, p.1 ∈ throttleTargets chain (goToUpper req.token)) ∧
      (∀ p ∈ txs, (requestTokens ctx env req st).2.throttleEnd req.ip
        (resolveNetwork ctx req.network) p.1 = some (env.now + 3600)) := by
  unfold requestTokens tokenStage at h ⊢
  cases hc : ctx.chainOf (resolveNetwork ctx req.network) with
  | none =>
    rw [hc] at h
    cases h
  | some chain =>
    simp only [hc] at h ⊢
    refine ⟨chain, rfl, ?_⟩
    have ha : chain.validateAddress req.address = true := by
      by_contra hna
      rw [if_neg hna] at h
      cases h
    simp only [if_pos ha] at h ⊢
    refine ⟨ha, ?_⟩
    have ht : ¬(goToUpper req.token ≠ "BOTH" ∧
        chain.validateToken (goToUpper req.token) = false) := by
      intro hx
      rw [if_pos hx] at h
      cases h
    simp only [if_neg ht] at h ⊢
    unfold dailyStage at h ⊢
    have he : env.dailyErr = false := by
      cases hx : env.dailyErr with
      | false => rfl
      | true =>
        rw [hx] at h
        simp only [if_true] at h
        cases h
    rw [he] at h ⊢
    simp only [Bool.false_eq_true, if_false] at h ⊢
    have h1 : ¬((checkIPDailyLimit ctx.maxRequestsPerDayIP st req.ip).1 = false ∧
        ((checkIPDailyLimit ctx.maxRequestsPerDayIP st req.ip).2.2).isSome = true) := by
      intro hx
      rw [if_pos hx] at h
      cases h
    simp only [if_neg h1] at h ⊢
    have h2 : ¬((checkIPDailyLimit ctx.maxRequestsPerDayIP st req.ip).1 = false ∨
        ctx.maxRequestsPerDayIP <
          (checkIPDailyLimit ctx.maxRequestsPerDayIP st req.ip).2.1 +
            dailyCost (goToUpper req.token)) := by
      intro hx
      rw [if_pos hx] at h
      cases h
    simp only [if_neg h2] at h ⊢
    unfold throttleStage at h ⊢
    have hs : scanThrottles env st req.ip (resolveNetwork ctx req.network)
        (throttleTargets chain (goToUpper req.token)) = .pass := by
      cases hx : scanThrottles env st req.ip (resolveNetwork ctx req.network)
          (throttleTargets chain (goToUpper req.token)) with
      | pass => rfl
      | storeErr =>
        rw [hx] at h
        cases h
      | throttled t e =>
        rw [hx] at h
        cases h
    rw [hs] at h ⊢
    refine ⟨rfl, ?_⟩
    unfold powStage at h ⊢
    have hce : env.challengeErr = false := by
      cases hx : env.challengeErr with
      | false => rfl
      | true =>
        rw [hx] at h
        simp only [if_true] at h
        cases h
    rw [hce] at h ⊢
    simp only [Bool.false_eq_true, if_false] at h ⊢
    cases hch : st.challenge req.challengeID with
    | none =>
      rw [hch] at h
      cases h
    | some ch =>
      simp only [hch] at h ⊢
      have hv : ctx.verifyPoW ch req.nonce = true := by
        cases hx : ctx.verifyPoW ch req.nonce with
        | true => rfl
        | false =>
          rw [hx] at h
          simp only [Bool.false_eq_true, if_false] at h
          cases h
      simp only [hv, if_true] at h ⊢
      by_cases htk : goToUpper req.token = "BOTH"
      · simp only [htk, if_pos, reduceIte] at h ⊢
        unfold handleBothTokensRequest at h ⊢
        rcases hl : bothLoop env chain (deleteChallenge st req.challengeID) []
            chain.supportedTokens with ⟨txs1, f1, st1⟩
        simp only [hl] at h ⊢
        have hemp : txs1.isEmpty = false := by
          cases hx : txs1.isEmpty with
          | false => rfl
          | true =>
            rw [hx] at h
            simp only [if_true] at h
            cases h
        rw [hemp] at h ⊢
        simp only [Bool.false_eq_true, if_false] at h ⊢
        simp only [Response.success.injEq] at h
        obtain ⟨htxs, hf⟩ := h
        constructor
        · intro p hp
          rw [← htxs] at hp
          rcases bothLoop_txs env chain chain.supportedTokens
              (deleteChallenge st req.challengeID) [] p
              (by rw [hl]; exact hp) with hin | hin
          · cases hin
          · unfold throttleTargets
            simp [htk, hin]
        · intro p hp
          rw [← htxs] at hp
          rw [setThrottleList_throttleEnd]
          have hm : p.1 ∈ List.map Prod.fst txs1 :=
            List.mem_map_of_mem Prod.fst hp
          simp [hm]
      · simp only [if_neg htk] at h ⊢
        rcases singleDisburse_shape ctx env req (deleteChallenge st req.challengeID)
            chain (resolveNetwork ctx req.network) (goToUpper req.token) with
          ⟨txh, htr, heq⟩ | ⟨hns, _, _, _, _, _, _, _⟩
        · rw [heq] at h ⊢
          simp only [Response.success.injEq] at h
          obtain ⟨htxs, hf⟩ := h
          constructor
          · intro p hp
            rw [← htxs] at hp
            simp only [List.mem_singleton] at hp
            rw [hp]
            unfold throttleTargets
            simp [htk]
          · intro p hp
            rw [← htxs] at hp
            simp only [List.mem_singleton] at hp
            rw [hp]
            rw [setThrottle_throttleEnd]
            simp
        · rw [h] at hns
          simp [isSuccess] at hns

theorem singleDisburse_challenge (ctx : Ctx) (env : Env) (req : Request)
    (st : Store) (chain : Chain) (network token : String) :
    (singleDisburse ctx env req st chain network token).2.challenge = st.challenge := by
  rcases singleDisburse_shape ctx env req st chain network token with
    ⟨txh, htr, heq⟩ | ⟨_, _, _, _, _, _, _, hc⟩
  · rw [heq]
    have h1 := (setThrottle_preserves
      (incrementIPDailyLimit ctx.maxRequestsPerDayIP
        (trackGlobalDistribution st token (chain.dripAmount token)
          (chain.maxTokensPerHour token) (chain.maxTokensPerDay token)).2
        env.now req.ip 1) env.now req.ip network token).2.2
    have h2 := (incrementDaily_fields ctx.maxRequestsPerDayIP
      (trackGlobalDistribution st token (chain.dripAmount token)
        (chain.maxTokensPerHour token) (chain.maxTokensPerDay token)).2
      env.now req.ip 1).2.2
    have h3 := (trackGlobal_preserves st token (chain.dripAmount token)
      (chain.maxTokensPerHour token) (chain.maxTokensPerDay token)).2.2.2
    exact (h1.trans h2).trans h3
  · exact hc

theorem handleBoth_challenge (ctx : Ctx) (env : Env) (req : Request)
    (st : Store) (chain : Chain) (network : String) :
    (handleBothTokensRequest ctx env req st chain network).2.challenge = st.challenge := by
  have hpres := (bothLoop_preserves env chain chain.supportedTokens st []).2.2.2
  unfold handleBothTokensRequest
  rcases hl : bothLoop env chain st [] chain.supportedTokens with ⟨txs, f, st1⟩
  rw [hl] at hpres
  by_cases he : txs.isEmpty = true
  · simp only [he, if_true]
    exact hpres
  · simp only [if_neg he]
    have h1 := (setThrottleList_preserves env.now req.ip network
      (List.map Prod.fst txs)
      (incrementIPDailyLimit ctx.maxRequestsPerDayIP st1 env.now req.ip 2)).2.2
    have h2 := (incrementDaily_fields ctx.maxRequestsPerDayIP st1
      env.now req.ip 2).2.2
    exact (h1.trans h2).trans hpres

theorem requestTokens_challenge_deleted (ctx : Ctx) (env : Env) (req : Request)
    (st : Store) (chain : Chain) (ch : String)
    (hchain : ctx.chainOf (resolveNetwork ctx req.network) = some chain)
    (haddr : chain.validateAddress req.address = true)
    (htok : goToUpper req.token = "BOTH" ∨
      chain.validateToken (goToUpper req.token) = true)
    (herr : env.dailyErr = false)
    (hcd : st.cooldownEnd req.ip = none)
    (hq : st.daily req.ip + dailyCost (goToUpper req.token) ≤ ctx.maxRequestsPerDayIP)
    (hscan : scanThrottles env st req.ip (resolveNetwork ctx req.network)
      (throttleTargets chain (goToUpper req.token)) = .pass)
    (hce : env.challengeErr = false)
    (hch : st.challenge req.challengeID = some ch)
    (hv : ctx.verifyPoW ch req.nonce = true) :
    ((requestTokens ctx env req st).2).challenge req.challengeID = none := by
  rw [requestTokens_to_daily ctx env req st chain hchain haddr htok,
    dailyStage_to_throttle ctx env req st chain (resolveNetwork ctx req.network)
      (goToUpper req.token) herr hcd hq,
    throttleStage_to_pow ctx env req st chain (resolveNetwork ctx req.network)
      (goToUpper req.token) hscan]
  by_cases htk : goToUpper req.token = "BOTH"
  · rw [htk]
    have hb := powStage_to_both ctx env req st chain
      (resolveNetwork ctx req.network) ch hce hch hv
    rw [hb, handleBoth_challenge]
    unfold deleteChallenge
    simp
  · rw [powStage_to_single ctx env req st chain (resolveNetwork ctx req.network)
      (goToUpper req.token) ch hce hch hv htk, singleDisburse_challenge]
    unfold deleteChallenge
    simp

theorem requestTokens_single_success (ctx : Ctx) (env : Env) (req : Request)
    (st : Store) (txs : List (String × String)) (f : Option String)
    (htok : goToUpper req.token ≠ "BOTH")
    (h : (requestTokens ctx env req st).1 = .success txs f) :
    (∃ txh, env.transfer (goToUpper req.token) = some txh ∧
      txs = [(goToUpper req.token, txh)] ∧ f = none) ∧
    (requestTokens ctx env req st).2.daily req.ip = st.daily req.ip + 1 ∧
    (requestTokens ctx env req st).2.throttleEnd req.ip
      (resolveNetwork ctx req.network) (goToUpper req.token) = some (env.now + 3600) := by
  unfold requestTokens tokenStage at h ⊢
  cases hc : ctx.chainOf (resolveNetwork ctx req.network) with
  | none =>
    rw [hc] at h
    cases h
  | some chain =>
    simp only [hc] at h ⊢
    have ha : chain.validateAddress req.address = true := by
      by_contra hna
      rw [if_neg hna] at h
      cases h
    simp only [if_pos ha] at h ⊢
    have ht : ¬(goToUpper req.token ≠ "BOTH" ∧
        chain.validateToken (goToUpper req.token) = false) := by
      intro hx
      rw [if_pos hx] at h
      cases h
    simp only [if_neg ht] at h ⊢
    unfold dailyStage at h ⊢
    have he : env.dailyErr = false := by
      cases hx : env.dailyErr with
      | false => rfl
      | true =>
        rw [hx] at h
        simp only [if_true] at h
        cases h
    rw [he] at h ⊢
    simp only [Bool.false_eq_true, if_false] at h ⊢
    have h1 : ¬((checkIPDailyLimit ctx.maxRequestsPerDayIP st req.ip).1 = false ∧
        ((checkIPDailyLimit ctx.maxRequestsPerDayIP st req.ip).2.2).isSome = true) := by
      intro hx
      rw [if_pos hx] at h
      cases h
    simp only [if_neg h1] at h ⊢
    have h2 : ¬((checkIPDailyLimit ctx.maxRequestsPerDayIP st req.ip).1 = false ∨
        ctx.maxRequestsPerDayIP <
          (checkIPDailyLimit ctx.maxRequestsPerDayIP st req.ip).2.1 +
            dailyCost (goToUpper req.token)) := by
      intro hx
      rw [if_pos hx] at h
      cases h
    simp only [if_neg h2] at h ⊢
    unfold throttleStage at h ⊢
    have hs : scanThrottles env st req.ip (resolveNetwork ctx req.network)
        (throttleTargets chain (goToUpper req.token)) = .pass := by
      cases hx : scanThrottles env st req.ip (resolveNetwork ctx req.network)
          (throttleTargets chain (goToUpper req.token)) with
      | pass => rfl
      | storeErr =>
        rw [hx] at h
        cases h
      | throttled t e =>
        rw [hx] at h
        cases h
    rw [hs] at h ⊢
    unfold powStage at h ⊢
    have hce : env.challengeErr = false := by
      cases hx : env.challengeErr with
      | false => rfl
      | true =>
        rw [hx] at h
        simp only [if_true] at h
        cases h
    rw [hce] at h ⊢
    simp only [Bool.false_eq_true, if_false] at h ⊢
    cases hch : st.challenge req.challengeID with
    | none =>
      rw [hch] at h
      cases h
    | some ch =>
      simp only [hch] at h ⊢
      have hv : ctx.verifyPoW ch req.nonce = true := by
        cases hx : ctx.verifyPoW ch req.nonce with
        | true => rfl
        | false =>
          rw [hx] at h
          simp only [Bool.false_eq_true, if_false] at h
          cases h
      simp only [hv, if_true] at h ⊢
      simp only [if_neg htok] at h ⊢
      rcases singleDisburse_shape ctx env req (deleteChallenge st req.challengeID)
          chain (resolveNetwork ctx req.network) (goToUpper req.token) with
        ⟨txh, htr, heq⟩ | ⟨hns, _, _, _, _, _, _, _⟩
      · rw [heq] at h ⊢
        simp only [Response.success.injEq] at h
        obtain ⟨htxs, hf⟩ := h
        refine ⟨⟨txh, htr, htxs.symm, hf.symm⟩, ?_, ?_⟩
        · have hA := (setThrottle_preserves
            (incrementIPDailyLimit ctx.maxRequestsPerDayIP
              (trackGlobalDistribution (deleteChallenge st req.challengeID)
                (goToUpper req.token) (chain.dripAmount (goToUpper req.token))
                (chain.maxTokensPerHour (goToUpper req.token))
                (chain.maxTokensPerDay (goToUpper req.token))).2
              env.now req.ip 1)
            env.now req.ip (resolveNetwork ctx req.network) (goToUpper req.token)).1
          rw [hA]
          have hB := (incrementDaily_fields ctx.maxRequestsPerDayIP
            (trackGlobalDistribution (deleteChallenge st req.challengeID)
              (goToUpper req.token) (chain.dripAmount (goToUpper req.token))
              (chain.maxTokensPerHour (goToUpper req.token))
              (chain.maxTokensPerDay (goToUpper req.token))).2
            env.now req.ip 1).1
          rw [hB]
          have hC := congrFun (trackGlobal_preserves (deleteChallenge st req.challengeID)
            (goToUpper req.token) (chain.dripAmount (goToUpper req.token))
            (chain.maxTokensPerHour (goToUpper req.token))
            (chain.maxTokensPerDay (goToUpper req.token))).1 req.ip
          rw [hC]
          rfl
        · rw [setThrottle_throttleEnd]
          simp
      · rw [h] at hns
        simp [isSuccess] at hns

theorem lowerByte_eip55Byte (b h : Nat) (hb : isHexByte b = true) :
    lowerByte (eip55Byte (lowerByte b) h) = lowerByte b := by
  unfold isHexByte at hb
  rw [decide_eq_true_eq] at hb
  unfold lowerByte eip55Byte upperByte
  rcases hb with h1 | h1 | h1 <;> split_ifs <;> omega

theorem eip55_zip_lower :
    ∀ (l : List Nat), (∀ b ∈ l, isHexByte b = true) →
    ∀ (hs : List Nat), l.length ≤ hs.length →
    (List.zipWith eip55Byte (l.map lowerByte) hs).map lowerByte =
      l.map lowerByte := by
  intro l
  induction l with
  | nil =>
    intro _ hs _
    simp
  | cons b l2 ih =>
    intro hl hs hlen
    cases hs with
    | nil => simp at hlen
    | cons hh hs2 =>
      have hb := hl b (List.mem_cons_self b l2)
      have hlen2 : l2.length ≤ hs2.length := by
        simp [List.length_cons] at hlen
        omega
      simp only [List.map_cons, List.zipWith_cons_cons,
        lowerByte_eip55Byte b hh hb,
        ih (fun x hx => hl x (List.mem_cons_of_mem b hx)) hs2 hlen2]

/-- C1: Balance guard — for every current balance `b`, proposed amount `a`
and configured reserve percentage `p`, the guard denies iff
`b - a < b * p / 100`, the boundary case `b - a = b * p / 100` is allowed
(non-strict comparison), and a pipeline run rejected by the balance guard
leaves the daily counters, cooldown markers and hourly-throttle markers
unchanged (a denial commits nothing). -/
theorem C1_balance_guard :
    (∀ (b a : ℚ) (p : ℤ),
      (balanceGuardDeny b a p = true ↔ b - a < b * (p : ℚ) / 100) ∧
      (b - a = b * (p : ℚ) / 100 → balanceGuardDeny b a p = false)) ∧
    (∀ (ctx : Ctx) (env : Env) (req : Request) (st : Store),
      (requestTokens ctx env req st).1 = .lowBalance →
      (requestTokens ctx env req st).2.daily = st.daily ∧
      (requestTokens ctx env req st).2.cooldownEnd = st.cooldownEnd ∧
      (requestTokens ctx env req st).2.throttleEnd = st.throttleEnd) := by
  constructor
  · intro b a p
    constructor
    · unfold balanceGuardDeny
      rw [decide_eq_true_eq, mul_div_assoc]
    · intro he
      unfold balanceGuardDeny
      rw [decide_eq_false_iff_not, mul_div_assoc] at *
      rw [he]
      exact lt_irrefl _
  · intro ctx env req st h
    exact requestTokens_not_success ctx env req st (by rw [h]; rfl)

/-- Witness for C1 at concrete inputs: balance 100, amount 95, reserve 10%
is denied; the boundary balance 100, amount 90, reserve 10% is allowed;
and a concrete run that trips the guard leaves the rate-limit state
untouched. -/
theorem C1_balance_guard_witness :
    balanceGuardDeny 100 95 10 = true ∧
    balanceGuardDeny 100 90 10 = false ∧
    ((requestTokens ctxFixture envLowBalance reqEth storeFixture).2.daily =
        storeFixture.daily ∧
      (requestTokens ctxFixture envLowBalance reqEth storeFixture).2.cooldownEnd =
        storeFixture.cooldownEnd ∧
      (requestTokens ctxFixture envLowBalance reqEth storeFixture).2.throttleEnd =
        storeFixture.throttleEnd) :=
  ⟨(C1_balance_guard.1 100 95 10).1.mpr (by norm_num),
    (C1_balance_guard.1 100 90 10).2 (by norm_num),
    C1_balance_guard.2 ctxFixture envLowBalance reqEth storeFixture (by with_unfolding_all decide)⟩

/-- C9: GetStatus computes the can-request flag from the requesting IP's
daily quota (true iff remaining quota is positive and no cooldown marker),
independently of the queried address, and the handler never populates the
cooldown-remaining / next-request-time fields. -/
theorem C9_status_from_ip (ctx : Ctx) (env : Env) (st : Store)
    (network ip a1 a2 : String) (chain : Chain)
    (hchain : ctx.chainOf (resolveNetwork ctx network) = some chain)
    (h1 : chain.validateAddress a1 = true)
    (h2 : chain.validateAddress a2 = true)
    (hq : env.quotaErr = false) :
    getStatus ctx env st a1 network ip = .ok
      { address := a1
        canRequest := decide (0 < ctx.maxRequestsPerDayIP - st.daily ip) &&
          (st.cooldownEnd ip).isNone
        nextRequestTime := none
        remainingHours := none } ∧
    getStatus ctx env st a2 network ip = .ok
      { address := a2
        canRequest := decide (0 < ctx.maxRequestsPerDayIP - st.daily ip) &&
          (st.cooldownEnd ip).isNone
        nextRequestTime := none
        remainingHours := none } ∧
    ((decide (0 < ctx.maxRequestsPerDayIP - st.daily ip) &&
        (st.cooldownEnd ip).isNone) = true ↔
      (st.daily ip < ctx.maxRequestsPerDayIP ∧ st.cooldownEnd ip = none)) := by
  refine ⟨?_, ?_, ?_⟩
  · unfold getStatus getIPDailyQuota
    rw [hchain]
    simp [h1, hq]
  · unfold getStatus getIPDailyQuota
    rw [hchain]
    simp [h2, hq]
  · rw [Bool.and_eq_true, decide_eq_true_eq, Option.isNone_iff_eq_none]
    constructor
    · rintro ⟨hx, hy⟩
      exact ⟨by omega, hy⟩
    · rintro ⟨hx, hy⟩
      exact ⟨by omega, hy⟩

/-- Witness for C9 at concrete inputs: two different valid addresses get
the same can-request flag, computed from the fixture IP's quota. -/
theorem C9_status_from_ip_witness :
    getStatus ctxFixture envFixture storeFixture "0xabc" "ethereum" "9.9.9.9" = .ok
      { address := "0xabc"
        canRequest := decide (0 < ctxFixture.maxRequestsPerDayIP -
            storeFixture.daily "9.9.9.9") &&
          (storeFixture.cooldownEnd "9.9.9.9").isNone
        nextRequestTime := none
        remainingHours := none } ∧
    getStatus ctxFixture envFixture storeFixture "0xdef" "ethereum" "9.9.9.9" = .ok
      { address := "0xdef"
        canRequest := decide (0 < ctxFixture.maxRequestsPerDayIP -
            storeFixture.daily "9.9.9.9") &&
          (storeFixture.cooldownEnd "9.9.9.9").isNone
        nextRequestTime := none
        remainingHours := none } ∧
    ((decide (0 < ctxFixture.maxRequestsPerDayIP - storeFixture.daily "9.9.9.9") &&
        (storeFixture.cooldownEnd "9.9.9.9").isNone) = true ↔
      (storeFixture.daily "9.9.9.9" < ctxFixture.maxRequestsPerDayIP ∧
        storeFixture.cooldownEnd "9.9.9.9" = none)) :=
  C9_status_from_ip ctxFixture envFixture storeFixture "ethereum" "9.9.9.9"
    "0xabc" "0xdef" ethFixture rfl rfl rfl rfl

/-- C10: EIP-55 checksumming is idempotent — for every address of the form
`0x` followed by 40 hex characters, and every hex-digest function producing
64 hex characters (as Keccak-256 does), checksumming twice equals
checksumming once, and the checksummed address passes
`isValidEIP55Checksum`. -/
theorem C10_eip55_idempotent (keccakHex : List Nat → List Nat)
    (hk : ∀ s, (keccakHex s).length = 64)
    (rest : List Nat) (hlen : rest.length = 40)
    (hhex : ∀ b ∈ rest, isHexByte b = true) :
    toEIP55Checksum keccakHex (toEIP55Checksum keccakHex (48 :: 120 :: rest)) =
      toEIP55Checksum keccakHex (48 :: 120 :: rest) ∧
    isValidEIP55Checksum keccakHex
      (toEIP55Checksum keccakHex (48 :: 120 :: rest)) = true := by
  have key : ((toEIP55Checksum keccakHex (48 :: 120 :: rest)).drop 2).map lowerByte
      = rest.map lowerByte := by
    have hdrop2 : (toEIP55Checksum keccakHex (48 :: 120 :: rest)).drop 2 =
        List.zipWith eip55Byte (rest.map lowerByte)
          (keccakHex (rest.map lowerByte)) := rfl
    rw [hdrop2]
    apply eip55_zip_lower rest hhex
    rw [hk (List.map lowerByte rest), hlen]
    omega
  have expand : ∀ Y : List Nat, toEIP55Checksum keccakHex Y =
      48 :: 120 :: List.zipWith eip55Byte ((Y.drop 2).map lowerByte)
        (keccakHex ((Y.drop 2).map lowerByte)) := fun Y => rfl
  have hdrop : List.drop 2 (48 :: 120 :: rest) = rest := rfl
  have main : toEIP55Checksum keccakHex
      (toEIP55Checksum keccakHex (48 :: 120 :: rest)) =
      toEIP55Checksum keccakHex (48 :: 120 :: rest) := by
    rw [expand (toEIP55Checksum keccakHex (48 :: 120 :: rest)), key,
      expand (48 :: 120 :: rest), hdrop]
  refine ⟨main, ?_⟩
  unfold isValidEIP55Checksum
  rw [main]
  simp

/-- Witness for C10: a concrete all-`a` address and a concrete digest
function (all `8` nibbles, so every letter is uppercased). -/
theorem C10_eip55_idempotent_witness :
    toEIP55Checksum (fun _ => List.replicate 64 56)
        (toEIP55Checksum (fun _ => List.replicate 64 56)
          (48 :: 120 :: List.replicate 40 97)) =
      toEIP55Checksum (fun _ => List.replicate 64 56)
        (48 :: 120 :: List.replicate 40 97) ∧
    isValidEIP55Checksum (fun _ => List.replicate 64 56)
      (toEIP55Checksum (fun _ => List.replicate 64 56)
        (48 :: 120 :: List.replicate 40 97)) = true :=
  C10_eip55_idempotent (fun _ => List.replicate 64 56)
    (fun _ => by simp) (List.replicate 40 97) (by simp)
    (fun b hb => by
      rw [List.eq_of_mem_replicate hb]
      decide)

/-- C2: Daily quota check — once validation has passed and the counter
store is reachable, a present cooldown marker denies the request regardless
of the counter value and reports the remaining cooldown time; with no
cooldown marker the request passes the daily gate iff
`used + requested_units ≤ daily_cap`, where the unit cost is 1 for a
single-token request and 2 for a BOTH request. -/
theorem C2_daily_quota (ctx : Ctx) (env : Env) (req : Request) (st : Store)
    (chain : Chain)
    (hchain : ctx.chainOf (resolveNetwork ctx req.network) = some chain)
    (haddr : chain.validateAddress req.address = true)
    (htok : goToUpper req.token = "BOTH" ∨
      chain.validateToken (goToUpper req.token) = true)
    (herr : env.dailyErr = false) :
    (∀ e, st.cooldownEnd req.ip = some e →
      (requestTokens ctx env req st).1 = .dailyCooldown (e - env.now)) ∧
    (st.cooldownEnd req.ip = none →
      (isDailyReject (requestTokens ctx env req st).1 = false ↔
        st.daily req.ip + dailyCost (goToUpper req.token) ≤
          ctx.maxRequestsPerDayIP)) := by
  rw [requestTokens_to_daily ctx env req st chain hchain haddr htok]
  constructor
  · intro e hcd
    unfold dailyStage checkIPDailyLimit
    simp [herr, hcd]
  · intro hcd
    constructor
    · intro hpass
      by_contra hq
      push_neg at hq
      have hdq : isDailyReject (dailyStage ctx env req st chain
          (resolveNetwork ctx req.network) (goToUpper req.token)).1 = true := by
        unfold dailyStage checkIPDailyLimit
        by_cases hu : st.daily req.ip < ctx.maxRequestsPerDayIP
        · simp [herr, hcd, hu, hq, isDailyReject]
        · simp [herr, hcd, hu, isDailyReject]
      rw [hpass] at hdq
      cases hdq
    · intro hq
      rw [dailyStage_to_throttle ctx env req st chain
        (resolveNetwork ctx req.network) (goToUpper req.token) herr hcd hq]
      exact throttleStage_class ctx env req st chain
        (resolveNetwork ctx req.network) (goToUpper req.token)

/-- Witness for C2 at concrete inputs: a fresh fixture store, where the
single-token request passes the daily gate and indeed 0 + 1 ≤ 5. -/
theorem C2_daily_quota_witness :
    isDailyReject (requestTokens ctxFixture envFixture reqEth storeFixture).1 = false ↔
      storeFixture.daily "9.9.9.9" + dailyCost (goToUpper "ETH") ≤
        ctxFixture.maxRequestsPerDayIP :=
  (C2_daily_quota ctxFixture envFixture reqEth storeFixture ethFixture
    (by with_unfolding_all rfl) rfl (Or.inr (by with_unfolding_all rfl)) rfl).2 rfl

/-- C3: Challenge single use — a run whose PoW verification succeeds deletes
the challenge id from the store immediately, whatever the later gates decide,
and any second submission with the same challenge id that reaches the PoW
gate is rejected as a PoW error (invalid or expired challenge). -/
theorem C3_challenge_single_use (ctx : Ctx) (env : Env) (req : Request)
    (st : Store) (chain : Chain) (ch : String)
    (hchain : ctx.chainOf (resolveNetwork ctx req.network) = some chain)
    (haddr : chain.validateAddress req.address = true)
    (htok : goToUpper req.token = "BOTH" ∨
      chain.validateToken (goToUpper req.token) = true)
    (herr : env.dailyErr = false)
    (hcd : st.cooldownEnd req.ip = none)
    (hq : st.daily req.ip + dailyCost (goToUpper req.token) ≤
      ctx.maxRequestsPerDayIP)
    (hscan : scanThrottles env st req.ip (resolveNetwork ctx req.network)
      (throttleTargets chain (goToUpper req.token)) = .pass)
    (hce : env.challengeErr = false)
    (hch : st.challenge req.challengeID = some ch)
    (hv : ctx.verifyPoW ch req.nonce = true) :
    ((requestTokens ctx env req st).2).challenge req.challengeID = none ∧
    (∀ (ctx2 : Ctx) (env2 : Env) (req2 : Request) (chain2 : Chain),
      req2.challengeID = req.challengeID →
      ctx2.chainOf (resolveNetwork ctx2 req2.network) = some chain2 →
      chain2.validateAddress req2.address = true →
      (goToUpper req2.token = "BOTH" ∨
        chain2.validateToken (goToUpper req2.token) = true) →
      env2.dailyErr = false →
      ((requestTokens ctx env req st).2).cooldownEnd req2.ip = none →
      ((requestTokens ctx env req st).2).daily req2.ip +
        dailyCost (goToUpper req2.token) ≤ ctx2.maxRequestsPerDayIP →
      scanThrottles env2 ((requestTokens ctx env req st).2) req2.ip
        (resolveNetwork ctx2 req2.network)
        (throttleTargets chain2 (goToUpper req2.token)) = .pass →
      (requestTokens ctx2 env2 req2 ((requestTokens ctx env req st).2)).1 =
        .powInvalidChallenge) := by
  have hdel := requestTokens_challenge_deleted ctx env req st chain ch
    hchain haddr htok herr hcd hq hscan hce hch hv
  refine ⟨hdel, ?_⟩
  intro ctx2 env2 req2 chain2 hid hchain2 haddr2 htok2 herr2 hcd2 hq2 hscan2
  rw [requestTokens_to_daily ctx2 env2 req2 _ chain2 hchain2 haddr2 htok2,
    dailyStage_to_throttle ctx2 env2 req2 _ chain2 _ _ herr2 hcd2 hq2,
    throttleStage_to_pow ctx2 env2 req2 _ chain2 _ _ hscan2]
  unfold powStage
  cases hce2 : env2.challengeErr with
  | true => rfl
  | false =>
    rw [hid, hdel]
    rfl

/-- Witness for C3: the fixture single-token run consumes challenge `c1`;
a following BOTH request reusing `c1` on the other network (so that no
other gate interferes) is rejected as a PoW error. -/
theorem C3_challenge_single_use_witness :
    ((requestTokens ctxFixture envFixture reqEth storeFixture).2).challenge
      reqEth.challengeID = none ∧
    (requestTokens ctxFixture envFixture reqBoth
      ((requestTokens ctxFixture envFixture reqEth storeFixture).2)).1 =
      .powInvalidChallenge := by
  have h := C3_challenge_single_use ctxFixture envFixture reqEth storeFixture
    ethFixture "ch1" (by with_unfolding_all rfl) rfl
    (Or.inr (by with_unfolding_all rfl)) rfl rfl (by decide)
    (by decide) rfl rfl rfl
  exact ⟨h.1, h.2 ctxFixture envFixture reqBoth snFixture rfl
    (by with_unfolding_all rfl) rfl (Or.inl (by with_unfolding_all rfl)) rfl
    (by with_unfolding_all decide) (by with_unfolding_all decide)
    (by with_unfolding_all decide)⟩

/-- C4: For every single-token request, the daily counter and the hourly
throttle marker are written only after the transfer succeeds — a run that
does not succeed leaves them (and the cooldown markers) unchanged, and a
successful run carries the transfer's tx hash, increments the caller's
daily counter by exactly 1 and stamps the 1-hour throttle marker. -/
theorem C4_commit_only_after_success (ctx : Ctx) (env : Env) (req : Request)
    (st : Store) (htok : goToUpper req.token ≠ "BOTH") :
    (isSuccess (requestTokens ctx env req st).1 = false →
      (requestTokens ctx env req st).2.daily = st.daily ∧
      (requestTokens ctx env req st).2.cooldownEnd = st.cooldownEnd ∧
      (requestTokens ctx env req st).2.throttleEnd = st.throttleEnd) ∧
    (∀ txs f, (requestTokens ctx env req st).1 = .success txs f →
      (∃ txh, env.transfer (goToUpper req.token) = some txh ∧
        txs = [(goToUpper req.token, txh)] ∧ f = none) ∧
      (requestTokens ctx env req st).2.daily req.ip = st.daily req.ip + 1 ∧
      (requestTokens ctx env req st).2.throttleEnd req.ip
        (resolveNetwork ctx req.network) (goToUpper req.token) =
          some (env.now + 3600)) :=
  ⟨fun h => requestTokens_not_success ctx env req st h,
    fun txs f h => requestTokens_single_success ctx env req st txs f htok h⟩

/-- Witness for C4: the fixture single-token run succeeds, carries the
transfer hash, adds one daily unit, and stamps the throttle marker. -/
theorem C4_commit_only_after_success_witness :
    (∃ txh, envFixture.transfer (goToUpper reqEth.token) = some txh ∧
      [("ETH", "0xbbb")] = [(goToUpper reqEth.token, txh)] ∧
      (none : Option String) = none) ∧
    (requestTokens ctxFixture envFixture reqEth storeFixture).2.daily
      reqEth.ip = storeFixture.daily reqEth.ip + 1 ∧
    (requestTokens ctxFixture envFixture reqEth storeFixture).2.throttleEnd
      reqEth.ip (resolveNetwork ctxFixture reqEth.network)
      (goToUpper reqEth.token) = some (envFixture.now + 3600) :=
  (C4_commit_only_after_success ctxFixture envFixture reqEth storeFixture
    (by decide)).2 [("ETH", "0xbbb")] none (by with_unfolding_all decide)

/-- C5 counterexample: in the fixture BOTH request STRK disburses and the
ETH transfer fails, so exactly one resource disbursed; the response is a
partial success naming ETH, yet the caller's daily counter goes from 0 to
2 — the caller is charged a daily-quota unit for the resource that was not
delivered, contradicting the claim that units are charged only for the
resources that actually disbursed. -/
theorem C5_counterexample :
    (requestTokens ctxFixture envPartial reqBoth storeFixture).1 =
      .success [("STRK", "0xaaa")] (some "ETH") ∧
    storeFixture.daily "9.9.9.9" = 0 ∧
    (requestTokens ctxFixture envPartial reqBoth storeFixture).2.daily
      "9.9.9.9" = 2 := by
  with_unfolding_all decide

/-- C5 (amended): for a BOTH request in which at least one resource
disburses, the caller's daily counter is charged the full 2 units (even
when a later resource fails a gate), the hourly throttle markers are set
exactly for the resources that actually disbursed, and the response
reports the disbursed transactions together with the failing resource. -/
theorem C5_partial_charging (ctx : Ctx) (env : Env) (req : Request)
    (st : Store) (chain : Chain) (ch : String)
    (hboth : goToUpper req.token = "BOTH")
    (hchain : ctx.chainOf (resolveNetwork ctx req.network) = some chain)
    (haddr : chain.validateAddress req.address = true)
    (herr : env.dailyErr = false)
    (hcd : st.cooldownEnd req.ip = none)
    (hq : st.daily req.ip + dailyCost (goToUpper req.token) ≤
      ctx.maxRequestsPerDayIP)
    (hscan : scanThrottles env st req.ip (resolveNetwork ctx req.network)
      (throttleTargets chain (goToUpper req.token)) = .pass)
    (hce : env.challengeErr = false)
    (hch : st.challenge req.challengeID = some ch)
    (hv : ctx.verifyPoW ch req.nonce = true)
    (hne : (bothLoop env chain (deleteChallenge st req.challengeID) []
      chain.supportedTokens).1 ≠ []) :
    (requestTokens ctx env req st).1 =
      .success (bothLoop env chain (deleteChallenge st req.challengeID) []
          chain.supportedTokens).1
        (bothLoop env chain (deleteChallenge st req.challengeID) []
          chain.supportedTokens).2.1 ∧
    (requestTokens ctx env req st).2.daily req.ip = st.daily req.ip + 2 ∧
    (∀ t, t ∈ ((bothLoop env chain (deleteChallenge st req.challengeID) []
        chain.supportedTokens).1).map Prod.fst →
      (requestTokens ctx env req st).2.throttleEnd req.ip
        (resolveNetwork ctx req.network) t = some (env.now + 3600)) ∧
    (∀ t, t ∉ ((bothLoop env chain (deleteChallenge st req.challengeID) []
        chain.supportedTokens).1).map Prod.fst →
      (requestTokens ctx env req st).2.throttleEnd req.ip
        (resolveNetwork ctx req.network) t =
        st.throttleEnd req.ip (resolveNetwork ctx req.network) t) := by
  rw [requestTokens_to_daily ctx env req st chain hchain haddr (Or.inl hboth),
    dailyStage_to_throttle ctx env req st chain
      (resolveNetwork ctx req.network) (goToUpper req.token) herr hcd hq,
    throttleStage_to_pow ctx env req st chain
      (resolveNetwork ctx req.network) (goToUpper req.token) hscan, hboth,
    powStage_to_both ctx env req st chain
      (resolveNetwork ctx req.network) ch hce hch hv]
  unfold handleBothTokensRequest
  rcases hl : bothLoop env chain (deleteChallenge st req.challengeID) []
    chain.supportedTokens with ⟨txs1, f1, st1⟩
  rw [hl] at hne
  simp only at hne
  have hpres := (bothLoop_preserves env chain chain.supportedTokens
    (deleteChallenge st req.challengeID) [])
  rw [hl] at hpres
  have hemp : txs1.isEmpty = false := by
    cases hx : txs1.isEmpty with
    | false => rfl
    | true => exact absurd (List.isEmpty_iff.mp hx) hne
  simp only [hl, hemp, Bool.false_eq_true, if_false]
  refine ⟨trivial, ?_, ?_, ?_⟩
  · have hD1 := congrFun (setThrottleList_preserves env.now req.ip
      (resolveNetwork ctx req.network) (List.map Prod.fst txs1)
      (incrementIPDailyLimit ctx.maxRequestsPerDayIP st1 env.now req.ip 2)).1
      req.ip
    rw [hD1]
    have hD2 := (incrementDaily_fields ctx.maxRequestsPerDayIP st1
      env.now req.ip 2).1
    rw [hD2]
    have hD3 := congrFun hpres.1 req.ip
    rw [hD3]
    rfl
  · intro t hmem
    rw [setThrottleList_throttleEnd]
    simp [hmem]
  · intro t hmem
    rw [setThrottleList_throttleEnd]
    have hT1 := (incrementDaily_fields ctx.maxRequestsPerDayIP st1
      env.now req.ip 2).2.1
    simp only [hmem, and_false, if_false]
    rw [hT1]
    have hT2 := congrFun (congrFun (congrFun hpres.2.2.1 req.ip)
      (resolveNetwork ctx req.network)) t
    rw [hT2]
    rfl

/-- Witness for the amended C5: the fixture run where STRK disburses and
ETH fails, instantiating every hypothesis concretely. -/
theorem C5_partial_charging_witness :
    (requestTokens ctxFixture envPartial reqBoth storeFixture).1 =
      .success (bothLoop envPartial snFixture
          (deleteChallenge storeFixture reqBoth.challengeID) []
          snFixture.supportedTokens).1
        (bothLoop envPartial snFixture
          (deleteChallenge storeFixture reqBoth.challengeID) []
          snFixture.supportedTokens).2.1 ∧
    (requestTokens ctxFixture envPartial reqBoth storeFixture).2.daily
      reqBoth.ip = storeFixture.daily reqBoth.ip + 2 ∧
    (∀ t, t ∈ ((bothLoop envPartial snFixture
        (deleteChallenge storeFixture reqBoth.challengeID) []
        snFixture.supportedTokens).1).map Prod.fst →
      (requestTokens ctxFixture envPartial reqBoth storeFixture).2.throttleEnd
        reqBoth.ip (resolveNetwork ctxFixture reqBoth.network) t =
        some (envPartial.now + 3600)) ∧
    (∀ t, t ∉ ((bothLoop envPartial snFixture
        (deleteChallenge storeFixture reqBoth.challengeID) []
        snFixture.supportedTokens).1).map Prod.fst →
      (requestTokens ctxFixture envPartial reqBoth storeFixture).2.throttleEnd
        reqBoth.ip (resolveNetwork ctxFixture reqBoth.network) t =
        storeFixture.throttleEnd reqBoth.ip
          (resolveNetwork ctxFixture reqBoth.network) t) :=
  C5_partial_charging ctxFixture envPartial reqBoth storeFixture snFixture
    "ch1" (by decide) (by with_unfolding_all rfl) rfl rfl rfl (by decide)
    (by decide) rfl rfl rfl (by with_unfolding_all decide)

/-- C6 counterexample, refuting the claim at two concrete inputs: (i) with
every gate otherwise passing, a counter-store error during the challenge
lookup (`GetChallenge` returning an error) is answered with the PoW
rejection for an invalid or expired challenge — a PoW rejection reason,
not a try-again error; (ii) in a BOTH request whose first resource has
already disbursed, a chain-RPC failure on the second resource's transfer
is answered with a partial-success response (`Success = true` naming the
failed resource), not a try-again error. -/
theorem C6_counterexample :
    (requestTokens ctxFixture envChallengeDown reqEth storeFixture).1 =
      .powInvalidChallenge ∧
    isPowReject (requestTokens ctxFixture envChallengeDown reqEth
      storeFixture).1 = true ∧
    isTryAgain (requestTokens ctxFixture envChallengeDown reqEth
      storeFixture).1 = false ∧
    (requestTokens ctxFixture envPartial reqBoth storeFixture).1 =
      .success [("STRK", "0xaaa")] (some "ETH") ∧
    isTryAgain (requestTokens ctxFixture envPartial reqBoth
      storeFixture).1 = false ∧
    isSuccess (requestTokens ctxFixture envPartial reqBoth
      storeFixture).1 = true := by
  with_unfolding_all decide

/-- C6 (amended): for every admission request, a collaborator error
surfaces distinguishably and never as an implicit allow — a counter-store
error during the daily-limit or hourly-throttle check answers the
try-again rate-check 500; in the single-token tail, a global-distribution
store error, a balance-read RPC error and a transfer failure answer their
distinguishable try-again 500s; in the BOTH tail, a collaborator failure
stops the loop and surfaces as the all-failed 500 naming the resource
when nothing disbursed, or as a partial-success response naming the
failed resource when an earlier resource had already disbursed, and every
disbursement the response reports is backed by an actual transfer success
(a collaborator error is never converted into an allow); try-again and
all-failed responses are disjoint from every rate-limit, PoW and success
response.  The one exception is a counter-store error during the
challenge lookup, which surfaces as the PoW invalid-challenge
rejection. -/
theorem C6_collaborator_errors (ctx : Ctx) (env : Env) (req : Request)
    (st : Store) (chain : Chain)
    (hchain : ctx.chainOf (resolveNetwork ctx req.network) = some chain)
    (haddr : chain.validateAddress req.address = true)
    (htok : goToUpper req.token = "BOTH" ∨
      chain.validateToken (goToUpper req.token) = true) :
    (env.dailyErr = true →
      (requestTokens ctx env req st).1 = .rateCheckError) ∧
    (env.dailyErr = false → st.cooldownEnd req.ip = none →
      st.daily req.ip + dailyCost (goToUpper req.token) ≤
        ctx.maxRequestsPerDayIP →
      (scanThrottles env st req.ip (resolveNetwork ctx req.network)
          (throttleTargets chain (goToUpper req.token)) = .storeErr →
        (requestTokens ctx env req st).1 = .rateCheckError) ∧
      (scanThrottles env st req.ip (resolveNetwork ctx req.network)
          (throttleTargets chain (goToUpper req.token)) = .pass →
        (env.challengeErr = true →
          (requestTokens ctx env req st).1 = .powInvalidChallenge) ∧
        (env.challengeErr = false →
          ∀ ch, st.challenge req.challengeID = some ch →
          ctx.verifyPoW ch req.nonce = true →
          (goToUpper req.token ≠ "BOTH" →
            (env.globalErr (goToUpper req.token) = true →
              (requestTokens ctx env req st).1 = .processError) ∧
            (env.globalErr (goToUpper req.token) = false →
              st.globalHourly (goToUpper req.token) +
                chain.dripAmount (goToUpper req.token) ≤
                chain.maxTokensPerHour (goToUpper req.token) →
              st.globalDaily (goToUpper req.token) +
                chain.dripAmount (goToUpper req.token) ≤
                chain.maxTokensPerDay (goToUpper req.token) →
              (env.balanceOf (goToUpper req.token) = none →
                (requestTokens ctx env req st).1 = .balanceCheckError) ∧
              (∀ bal, env.balanceOf (goToUpper req.token) = some bal →
                balanceGuardDeny bal (chain.dripAmount (goToUpper req.token))
                  chain.minBalanceProtectPct = false →
                env.transfer (goToUpper req.token) = none →
                (requestTokens ctx env req st).1 = .transferError))) ∧
          (goToUpper req.token = "BOTH" →
            ((bothLoop env chain (deleteChallenge st req.challengeID) []
                chain.supportedTokens).1 = [] →
              (requestTokens ctx env req st).1 = .bothAllFailed
                (((bothLoop env chain (deleteChallenge st req.challengeID) []
                  chain.supportedTokens).2.1).getD "")) ∧
            ((bothLoop env chain (deleteChallenge st req.challengeID) []
                chain.supportedTokens).1 ≠ [] →
              (requestTokens ctx env req st).1 = .success
                (bothLoop env chain (deleteChallenge st req.challengeID) []
                  chain.supportedTokens).1
                (bothLoop env chain (deleteChallenge st req.challengeID) []
                  chain.supportedTokens).2.1) ∧
            (∀ p ∈ (bothLoop env chain (deleteChallenge st req.challengeID) []
                chain.supportedTokens).1,
              env.transfer p.1 = some p.2))))) ∧
    (∀ r : Response, isTryAgain r = true →
      isRateLimitReject r = false ∧ isPowReject r = false ∧
        isSuccess r = false) ∧
    (∀ t, isRateLimitReject (.bothAllFailed t) = false ∧
      isPowReject (.bothAllFailed t) = false ∧
      isSuccess (.bothAllFailed t) = false) := by
  refine ⟨?_, ?_, ?_, ?_⟩
  · intro hde
    rw [requestTokens_to_daily ctx env req st chain hchain haddr htok]
    unfold dailyStage
    simp [hde]
  · intro hde hcd hq
    have hRT := requestTokens_to_daily ctx env req st chain hchain haddr htok
    have hDT := dailyStage_to_throttle ctx env req st chain
      (resolveNetwork ctx req.network) (goToUpper req.token) hde hcd hq
    constructor
    · intro hscan
      rw [hRT, hDT]
      unfold throttleStage
      rw [hscan]
    · intro hscan
      have hTP := throttleStage_to_pow ctx env req st chain
        (resolveNetwork ctx req.network) (goToUpper req.token) hscan
      constructor
      · intro hce
        rw [hRT, hDT, hTP]
        unfold powStage
        simp [hce]
      · intro hce ch hch hv
        constructor
        · intro htk
          have hPS := powStage_to_single ctx env req st chain
            (resolveNetwork ctx req.network) (goToUpper req.token)
            ch hce hch hv htk
          have hgeq : (deleteChallenge st req.challengeID).globalHourly =
            st.globalHourly := rfl
          have hgeq2 : (deleteChallenge st req.challengeID).globalDaily =
            st.globalDaily := rfl
          constructor
          · intro hge
            rw [hRT, hDT, hTP, hPS]
            unfold singleDisburse
            simp [hge]
          · intro hge hgh hgd
            have hfst : (trackGlobalDistribution
                (deleteChallenge st req.challengeID) (goToUpper req.token)
                (chain.dripAmount (goToUpper req.token))
                (chain.maxTokensPerHour (goToUpper req.token))
                (chain.maxTokensPerDay (goToUpper req.token))).1 = true := by
              unfold trackGlobalDistribution
              rw [hgeq, hgeq2, if_pos ⟨hgh, hgd⟩]
            constructor
            · intro hb
              rw [hRT, hDT, hTP, hPS]
              unfold singleDisburse
              simp [hge, hfst, hb]
            · intro bal hb hgua htr
              rw [hRT, hDT, hTP, hPS]
              unfold singleDisburse
              simp [hge, hfst, hb, hgua, htr]
        · intro htk
          have hPB : requestTokens ctx env req st =
              handleBothTokensRequest ctx env req
                (deleteChallenge st req.challengeID) chain
                (resolveNetwork ctx req.network) := by
            rw [hRT, hDT, hTP, htk]
            exact powStage_to_both ctx env req st chain
              (resolveNetwork ctx req.network) ch hce hch hv
          rw [hPB]
          unfold handleBothTokensRequest
          rcases hl : bothLoop env chain (deleteChallenge st req.challengeID) []
            chain.supportedTokens with ⟨txs1, f1, st1⟩
          refine ⟨?_, ?_, ?_⟩
          · intro hemp0
            have hemp : txs1.isEmpty = true := List.isEmpty_iff.mpr hemp0
            simp only [hl, hemp, if_true]
          · intro hne
            have hemp : txs1.isEmpty = false := by
              cases hx : txs1.isEmpty with
              | false => rfl
              | true => exact absurd (List.isEmpty_iff.mp hx) hne
            simp only [hl, hemp, Bool.false_eq_true, if_false]
          · intro p hp
            rcases bothLoop_transfer env chain chain.supportedTokens
                (deleteChallenge st req.challengeID) [] p
                (by rw [hl]; exact hp) with hin | hin
            · cases hin
            · exact hin
  · intro r hr
    cases r <;> simp_all [isTryAgain, isRateLimitReject, isPowReject, isSuccess]
  · intro t
    exact ⟨rfl, rfl, rfl⟩

/-- Witness for the amended C6 at two concrete runs: the single-token
fixture run whose chain RPC fails the transfer answers the try-again
transfer error, and the BOTH fixture run whose second transfer fails
answers the partial-success response reported by the loop. -/
theorem C6_collaborator_errors_witness :
    (requestTokens ctxFixture envTransferDown reqEth storeFixture).1 =
      .transferError ∧
    (requestTokens ctxFixture envPartial reqBoth storeFixture).1 = .success
      (bothLoop envPartial snFixture
        (deleteChallenge storeFixture reqBoth.challengeID) []
        snFixture.supportedTokens).1
      (bothLoop envPartial snFixture
        (deleteChallenge storeFixture reqBoth.challengeID) []
        snFixture.supportedTokens).2.1 := by
  constructor
  · have h := C6_collaborator_errors ctxFixture envTransferDown reqEth
      storeFixture ethFixture (by with_unfolding_all rfl) rfl
      (Or.inr (by with_unfolding_all rfl))
    have h2 := h.2.1 rfl rfl (by decide)
    have h3 := h2.2 (by decide)
    have h4 := h3.2 rfl "ch1" rfl rfl
    have h5 := (h4.1 (by decide)).2 rfl (by with_unfolding_all decide)
      (by with_unfolding_all decide)
    exact h5.2 100 (by with_unfolding_all rfl)
      (by with_unfolding_all decide) rfl
  · have h := C6_collaborator_errors ctxFixture envPartial reqBoth
      storeFixture snFixture (by with_unfolding_all rfl) rfl
      (Or.inl (by decide))
    have h2 := h.2.1 rfl rfl (by decide)
    have h3 := h2.2 (by decide)
    have h4 := h3.2 rfl "ch1" rfl rfl
    exact (h4.2 (by decide)).2.1 (by with_unfolding_all decide)

/-- C7: Hourly throttle — (gate) a single-token request that has passed
validation and the daily gate, with a working throttle store, is rejected
by the hourly-throttle gate iff a live throttle marker exists for the
exact (caller, network, token) key; (temporal) whenever one run disburses
a token and a later run on the resulting store disburses the same token
for the same caller and network, the two runs' clocks are at least 3600
seconds (1 hour) apart. -/
theorem C7_hourly_throttle :
    (∀ (ctx : Ctx) (env : Env) (req : Request) (st : Store) (chain : Chain),
      ctx.chainOf (resolveNetwork ctx req.network) = some chain →
      chain.validateAddress req.address = true →
      goToUpper req.token ≠ "BOTH" →
      chain.validateToken (goToUpper req.token) = true →
      env.dailyErr = false →
      st.cooldownEnd req.ip = none →
      st.daily req.ip + dailyCost (goToUpper req.token) ≤
        ctx.maxRequestsPerDayIP →
      env.throttleErr (goToUpper req.token) = false →
      (isHourlyReject (requestTokens ctx env req st).1 = true ↔
        markerLive st env.now req.ip (resolveNetwork ctx req.network)
          (goToUpper req.token) = true)) ∧
    (∀ (ctx1 : Ctx) (env1 : Env) (req1 : Request) (st : Store)
        (ctx2 : Ctx) (env2 : Env) (req2 : Request)
        (txs1 txs2 : List (String × String)) (f1 f2 : Option String)
        (tok x1 x2 : String),
      (requestTokens ctx1 env1 req1 st).1 = .success txs1 f1 →
      (tok, x1) ∈ txs1 →
      (requestTokens ctx2 env2 req2 ((requestTokens ctx1 env1 req1 st).2)).1 =
        .success txs2 f2 →
      (tok, x2) ∈ txs2 →
      req2.ip = req1.ip →
      resolveNetwork ctx2 req2.network = resolveNetwork ctx1 req1.network →
      env1.now + 3600 ≤ env2.now) := by
  constructor
  · intro ctx env req st chain hchain haddr htok htokv herr hcd hq hterr
    rw [requestTokens_to_daily ctx env req st chain hchain haddr (Or.inr htokv),
      dailyStage_to_throttle ctx env req st chain
        (resolveNetwork ctx req.network) (goToUpper req.token) herr hcd hq]
    unfold throttleStage
    have httgt : throttleTargets chain (goToUpper req.token) =
        [goToUpper req.token] := by
      unfold throttleTargets
      rw [if_neg htok]
    rw [httgt]
    cases hlive : markerLive st env.now req.ip (resolveNetwork ctx req.network)
        (goToUpper req.token) with
    | false =>
      have hscan : scanThrottles env st req.ip (resolveNetwork ctx req.network)
          [goToUpper req.token] = .pass := by
        unfold scanThrottles
        rw [checkThrottle_of_not_live st env.now req.ip
          (resolveNetwork ctx req.network) (goToUpper req.token) hlive]
        simp [hterr, scanThrottles]
      rw [hscan]
      have hpc := (powStage_class ctx env req st chain
        (resolveNetwork ctx req.network) (goToUpper req.token)).2
      simp [hpc]
    | true =>
      obtain ⟨e, he⟩ : ∃ e, st.throttleEnd req.ip
          (resolveNetwork ctx req.network) (goToUpper req.token) = some e := by
        unfold markerLive at hlive
        cases hte : st.throttleEnd req.ip (resolveNetwork ctx req.network)
            (goToUpper req.token) with
        | none =>
          rw [hte] at hlive
          cases hlive
        | some e => exact ⟨e, rfl⟩
      have hscan : scanThrottles env st req.ip (resolveNetwork ctx req.network)
          [goToUpper req.token] = .throttled (goToUpper req.token) e := by
        unfold scanThrottles
        rw [checkThrottle_of_live st env.now req.ip
          (resolveNetwork ctx req.network) (goToUpper req.token) hlive, he]
        simp [hterr]
      rw [hscan]
      simp [isHourlyReject]
  · intro ctx1 env1 req1 st ctx2 env2 req2 txs1 txs2 f1 f2 tok x1 x2
      h1 ht1 h2 ht2 hip hnet
    obtain ⟨chain1, hc1, ha1, hs1, hmem1, hmark1⟩ :=
      requestTokens_success_inversion ctx1 env1 req1 st txs1 f1 h1
    obtain ⟨chain2, hc2, ha2, hs2, hmem2, hmark2⟩ :=
      requestTokens_success_inversion ctx2 env2 req2
        ((requestTokens ctx1 env1 req1 st).2) txs2 f2 h2
    have hm1 := hmark1 (tok, x1) ht1
    have htok2 := hmem2 (tok, x2) ht2
    have hdead := ((scanThrottles_pass_iff env2
      ((requestTokens ctx1 env1 req1 st).2) req2.ip
      (resolveNetwork ctx2 req2.network)
      (throttleTargets chain2 (goToUpper req2.token))).mp hs2 tok htok2).2
    unfold markerLive at hdead
    rw [hip, hnet] at hdead
    rw [hm1] at hdead
    simp only [decide_eq_false_iff_not, Nat.not_lt] at hdead
    exact hdead

/-- Witness for C7 at concrete inputs: the fixture single-token request
on a fresh store passes the throttle gate iff the (absent) marker is
live. -/
theorem C7_hourly_throttle_witness :
    isHourlyReject (requestTokens ctxFixture envFixture reqEth storeFixture).1 = true ↔
      markerLive storeFixture envFixture.now reqEth.ip
        (resolveNetwork ctxFixture reqEth.network) (goToUpper reqEth.token) = true :=
  C7_hourly_throttle.1 ctxFixture envFixture reqEth storeFixture ethFixture
    (by with_unfolding_all rfl) rfl (by decide) (by with_unfolding_all rfl)
    rfl rfl (by decide) rfl

/-- C8: Gate ordering — gates are evaluated in the fixed order
chain/network lookup, address validation, token validation, daily quota
(store error, cooldown, cap), per-resource hourly throttle, PoW
verification (challenge lookup then solution), then for single-token
requests global distribution, balance guard and transfer; the first
failing gate fully determines the response, whatever the state relevant
to the later gates, and the all-pass run answers success. -/
theorem C8_gate_order (ctx : Ctx) (env : Env) (req : Request) (st : Store) :
    (ctx.chainOf (resolveNetwork ctx req.network) = none →
      (requestTokens ctx env req st).1 = .badNetwork) ∧
    (∀ chain, ctx.chainOf (resolveNetwork ctx req.network) = some chain →
      (chain.validateAddress req.address = false →
        (requestTokens ctx env req st).1 = .invalidAddress) ∧
      (chain.validateAddress req.address = true →
        ((goToUpper req.token ≠ "BOTH" ∧
            chain.validateToken (goToUpper req.token) = false) →
          (requestTokens ctx env req st).1 = .invalidToken) ∧
        ((goToUpper req.token = "BOTH" ∨
            chain.validateToken (goToUpper req.token) = true) →
          (env.dailyErr = true →
            (requestTokens ctx env req st).1 = .rateCheckError) ∧
          (env.dailyErr = false →
            (∀ e, st.cooldownEnd req.ip = some e →
              (requestTokens ctx env req st).1 =
                .dailyCooldown (e - env.now)) ∧
            (st.cooldownEnd req.ip = none →
              (ctx.maxRequestsPerDayIP <
                  st.daily req.ip + dailyCost (goToUpper req.token) →
                (requestTokens ctx env req st).1 = .dailyQuota) ∧
              (st.daily req.ip + dailyCost (goToUpper req.token) ≤
                  ctx.maxRequestsPerDayIP →
                (scanThrottles env st req.ip (resolveNetwork ctx req.network)
                    (throttleTargets chain (goToUpper req.token)) = .storeErr →
                  (requestTokens ctx env req st).1 = .rateCheckError) ∧
                (∀ t e, scanThrottles env st req.ip
                    (resolveNetwork ctx req.network)
                    (throttleTargets chain (goToUpper req.token)) =
                      .throttled t e →
                  (requestTokens ctx env req st).1 =
                    .hourlyThrottle t (e - env.now)) ∧
                (scanThrottles env st req.ip (resolveNetwork ctx req.network)
                    (throttleTargets chain (goToUpper req.token)) = .pass →
                  ((env.challengeErr = true ∨
                      st.challenge req.challengeID = none) →
                    (requestTokens ctx env req st).1 = .powInvalidChallenge) ∧
                  (env.challengeErr = false →
                    ∀ ch, st.challenge req.challengeID = some ch →
                    (ctx.verifyPoW ch req.nonce = false →
                      (requestTokens ctx env req st).1 = .powBadSolution) ∧
                    (ctx.verifyPoW ch req.nonce = true →
                      goToUpper req.token ≠ "BOTH" →
                      (env.globalErr (goToUpper req.token) = true →
                        (requestTokens ctx env req st).1 = .processError) ∧
                      (env.globalErr (goToUpper req.token) = false →
                        (¬(st.globalHourly (goToUpper req.token) +
                              chain.dripAmount (goToUpper req.token) ≤
                              chain.maxTokensPerHour (goToUpper req.token) ∧
                            st.globalDaily (goToUpper req.token) +
                              chain.dripAmount (goToUpper req.token) ≤
                              chain.maxTokensPerDay (goToUpper req.token)) →
                          (requestTokens ctx env req st).1 =
                            .distributionLimit) ∧
                        ((st.globalHourly (goToUpper req.token) +
                              chain.dripAmount (goToUpper req.token) ≤
                              chain.maxTokensPerHour (goToUpper req.token) ∧
                            st.globalDaily (goToUpper req.token) +
                              chain.dripAmount (goToUpper req.token) ≤
                              chain.maxTokensPerDay (goToUpper req.token)) →
                          (env.balanceOf (goToUpper req.token) = none →
                            (requestTokens ctx env req st).1 =
                              .balanceCheckError) ∧
                          (∀ bal, env.balanceOf (goToUpper req.token) =
                              some bal →
                            (balanceGuardDeny bal
                                (chain.dripAmount (goToUpper req.token))
                                chain.minBalanceProtectPct = true →
                              (requestTokens ctx env req st).1 = .lowBalance) ∧
                            (balanceGuardDeny bal
                                (chain.dripAmount (goToUpper req.token))
                                chain.minBalanceProtectPct = false →
                              (env.transfer (goToUpper req.token) = none →
                                (requestTokens ctx env req st).1 =
                                  .transferError) ∧
                              (∀ txh, env.transfer (goToUpper req.token) =
                                  some txh →
                                (requestTokens ctx env req st).1 =
                                  .success [(goToUpper req.token, txh)]
                                    none)))))))))))))) := by
  constructor
  · intro h
    unfold requestTokens
    rw [h]
  · intro chain hchain
    constructor
    · intro ha
      unfold requestTokens
      rw [hchain]
      simp [ha]
    · intro ha
      constructor
      · intro hbad
        unfold requestTokens tokenStage
        rw [hchain]
        simp only [ha, if_true]
        rw [if_pos hbad]
      · intro htok
        have hRT := requestTokens_to_daily ctx env req st chain hchain ha htok
        constructor
        · intro hde
          rw [hRT]
          unfold dailyStage
          simp [hde]
        · intro hde
          constructor
          · intro e hcd
            rw [hRT]
            unfold dailyStage checkIPDailyLimit
            simp [hde, hcd]
          · intro hcd
            constructor
            · intro hq
              rw [hRT]
              unfold dailyStage checkIPDailyLimit
              by_cases hu : st.daily req.ip < ctx.maxRequestsPerDayIP
              · simp [hde, hcd, hu, hq]
              · simp [hde, hcd, hu]
            · intro hq
              have hDT := dailyStage_to_throttle ctx env req st chain
                (resolveNetwork ctx req.network) (goToUpper req.token)
                hde hcd hq
              refine ⟨?_, ?_, ?_⟩
              · intro hscan
                rw [hRT, hDT]
                unfold throttleStage
                rw [hscan]
              · intro t e hscan
                rw [hRT, hDT]
                unfold throttleStage
                rw [hscan]
              · intro hscan
                have hTP := throttleStage_to_pow ctx env req st chain
                  (resolveNetwork ctx req.network) (goToUpper req.token) hscan
                constructor
                · intro hpc
                  rw [hRT, hDT, hTP]
                  unfold powStage
                  rcases hpc with hce | hnone
                  · simp [hce]
                  · cases hce2 : env.challengeErr with
                    | true => rfl
                    | false => simp [hce2, hnone]
                · intro hce ch hch
                  constructor
                  · intro hv
                    rw [hRT, hDT, hTP]
                    unfold powStage
                    simp [hce, hch, hv]
                  · intro hv htk
                    have hPS := powStage_to_single ctx env req st chain
                      (resolveNetwork ctx req.network) (goToUpper req.token)
                      ch hce hch hv htk
                    rw [hRT, hDT, hTP, hPS]
                    have hgeq : (deleteChallenge st req.challengeID).globalHourly =
                      st.globalHourly := rfl
                    have hgeq2 : (deleteChallenge st req.challengeID).globalDaily =
                      st.globalDaily := rfl
                    constructor
                    · intro hge
                      unfold singleDisburse
                      simp [hge]
                    · intro hge
                      constructor
                      · intro hgf
                        have hfst : (trackGlobalDistribution
                            (deleteChallenge st req.challengeID)
                            (goToUpper req.token)
                            (chain.dripAmount (goToUpper req.token))
                            (chain.maxTokensPerHour (goToUpper req.token))
                            (chain.maxTokensPerDay (goToUpper req.token))).1 =
                            false := by
                          unfold trackGlobalDistribution
                          rw [hgeq, hgeq2, if_neg hgf]
                        unfold singleDisburse
                        simp [hge, hfst]
                      · intro hgo
                        have hfst : (trackGlobalDistribution
                            (deleteChallenge st req.challengeID)
                            (goToUpper req.token)
                            (chain.dripAmount (goToUpper req.token))
                            (chain.maxTokensPerHour (goToUpper req.token))
                            (chain.maxTokensPerDay (goToUpper req.token))).1 =
                            true := by
                          unfold trackGlobalDistribution
                          rw [hgeq, hgeq2, if_pos hgo]
                        constructor
                        · intro hb
                          unfold singleDisburse
                          simp [hge, hfst, hb]
                        · intro bal hb
                          constructor
                          · intro hgd
                            unfold singleDisburse
                            simp [hge, hfst, hb, hgd]
                          · intro hgd
                            constructor
                            · intro htr
                              unfold singleDisburse
                              simp [hge, hfst, hb, hgd, htr]
                            · intro txh htr
                              unfold singleDisburse
                              simp [hge, hfst, hb, hgd, htr]

/-- Witness for C8: the all-pass fixture run answers success with the
transferred token and hash. -/
theorem C8_gate_order_witness :
    (requestTokens ctxFixture envFixture reqEth storeFixture).1 =
      .success [(goToUpper reqEth.token, "0xbbb")] none := by
  have h := C8_gate_order ctxFixture envFixture reqEth storeFixture
  have h1 := (h.2 ethFixture (by with_unfolding_all rfl)).2 rfl
  have h2 := (h1.2 (Or.inr (by with_unfolding_all rfl))).2 rfl
  have h3 := (h2.2 rfl).2 (by decide)
  have h4 := h3.2.2 (by decide)
  have h5 := (h4.2 rfl "ch1" rfl).2 rfl (by decide)
  have h6 := (h5.2 rfl).2 (by with_unfolding_all decide)
  have h7 := h6.2 100 (by with_unfolding_all rfl)
  have h8 := h7.2 (by with_unfolding_all decide)
  exact h8.2 "0xbbb" (by with_unfolding_all rfl)

end Faucet
